import Mathlib

/-!
# Chrono visualisation front-end: a shallow embedding

The development follows three source files:

* `src/chrono/assets/ChVisualSystem.cpp`: the observer list of a visual system
  (`AttachSystem`, the destructor);
* `src/chrono_vsg/ChVisualSystemVSG.h`: the inline setters of the VSG visual system;
* `src/chrono_vsg/shapes/ChVSGShapeFactory.cpp`: the shape factory (mesh tables, fallback
  texture, scene-graph composition).

Objects that the C++ code reaches through pointers are addressed by natural numbers; a null
pointer is `none`. Single-precision values that the factory only stores (mesh coordinates,
colours, texels) are rationals, every decimal literal being read exactly. Console logging
(`GetLog()`, `std::cout`) has no effect on any value below and is left out.
-/

namespace chrono

/-! ## `ChVisualSystem.cpp` -/

/-- The part of the object heap that `ChVisualSystem.cpp` reads and writes.
`visual_system a` is the field `ChSystem::visual_system` of the `ChSystem` at address `a`
(`none` is `nullptr`); `m_systems v` is the vector `ChVisualSystem::m_systems` of the
`ChVisualSystem` at address `v`. -/
structure World where
  visual_system : Nat → Option Nat
  m_systems : Nat → List Nat

namespace ChVisualSystem

/-- Source: `void ChVisualSystem::AttachSystem(ChSystem* sys)`:
`m_systems.push_back(sys); sys->visual_system = this;`. -/
def AttachSystem (this : Nat) (sys : Nat) (w : World) : World :=
  let w1 : World :=
    { w with m_systems := Function.update w.m_systems this (w.m_systems this ++ [sys]) }
  { w1 with visual_system := Function.update w1.visual_system sys (some this) }

/-- Source: `ChVisualSystem::~ChVisualSystem()`:
`for (auto s : m_systems) s->visual_system = nullptr;`.
The vector of the dying object is left in the model as it was; nothing reads it afterwards. -/
def destructor (this : Nat) (w : World) : World :=
  (w.m_systems this).foldl
    (fun acc s => { acc with visual_system := Function.update acc.visual_system s none }) w

/-- A sequence of `AttachSystem` calls, each given as (visual system, system), run in order. -/
def attachAll (calls : List (Nat × Nat)) (w : World) : World :=
  calls.foldl (fun acc c => AttachSystem c.1 c.2 acc) w

end ChVisualSystem

/-! ## `ChVisualSystemVSG.h` -/

/-- Modelled from the spec: `ChClamp` is declared in `chrono/core/ChMathematics.h`, which is not
among the sources; it is the function template that `SetLightIntensity` calls to bring the
intensity into the interval given by its last two arguments: a value below the lower limit gives
the lower limit, a value above the upper limit gives the upper limit, any other value is returned
as it is. The template parameter `T` is any type with a decidable linear order. -/
def ChClamp {T : Type} [LinearOrder T] (value limitMin limitMax : T) : T :=
  if value < limitMin then limitMin
  else if value > limitMax then limitMax
  else value

/-- A `vsg::dvec3`. -/
structure dvec3 (D : Type) where
  x : D
  y : D
  z : D

/-- A `ChColor` (declared in `chrono/assets/ChColor.h`): red, green and blue. -/
structure ChColor (D : Type) where
  R : D
  G : D
  B : D

namespace vsg3d

/-- The data members of `class ChVisualSystemVSG`, in the order of the header, after the list
`m_systems` inherited from `ChVisualSystem`. `D` is the type of the floating-point values
(`double`, and the one `float` `m_guiFontSize`), which the inline members only compare and
store. A `vsg::ref_ptr` or `std::shared_ptr` is the address of its object (`none` when null).
The stateless `std::hash<std::string> m_stringHash` has no value and is left out. -/
structure ChVisualSystemVSG (D : Type) where
  m_systems : List Nat
  m_initialized : Bool
  m_screen_num : Int
  m_use_fullscreen : Bool
  m_window : Option Nat
  m_viewer : Option Nat
  m_renderGraph : Option Nat
  m_show_gui : Bool
  m_gui : List (Option Nat)
  m_vsg_cameraEye : dvec3 D
  m_vsg_cameraTarget : dvec3 D
  m_lookAt : Option Nat
  m_vsg_camera : Option Nat
  m_camera_trackball : Bool
  m_system_symbol_position : dvec3 D
  m_system_symbol_size : dvec3 D
  m_scene : Option Nat
  m_bodyScene : Option Nat
  m_linkScene : Option Nat
  m_particleScene : Option Nat
  m_decoScene : Option Nat
  m_symbolScene : Option Nat
  m_deformableScene : Option Nat
  m_cogScene : Option Nat
  m_shapeBuilder : Option Nat
  m_vsgBuilder : Option Nat
  m_options : Option Nat
  m_wireframe : Bool
  m_capture_image : Bool
  m_imageFilename : String
  m_num_vsgVertexList : Nat
  m_allowVertexTransfer : Bool
  m_allowNormalsTransfer : Bool
  m_allowColorsTransfer : Bool
  m_vsgVerticesList : List (Option Nat)
  m_vsgNormalsList : List (Option Nat)
  m_vsgColorsList : List (Option Nat)
  m_mbsMesh : Option Nat
  m_objCache : List (Nat × Option Nat)
  m_windowWidth : Int
  m_windowHeight : Int
  m_windowX : Int
  m_windowY : Int
  m_windowTitle : String
  m_clearColor : ChColor D
  m_numThreads : Int
  m_loadThreads : Option Nat
  m_particlePattern : Option Nat
  m_useSkybox : Bool
  m_skyboxPath : String
  m_cameraUpVector : dvec3 D
  m_yup : Bool
  m_cameraAngleDeg : D
  m_lightIntensity : D
  m_elevation : D
  m_acimut : D
  m_guiFontSize : D
  m_show_cog : Bool
  m_cog_scale : D
  m_frame_number : Nat
  m_start_time : D

namespace ChVisualSystemVSG

variable {D : Type}

/-- Source: `void SetWireFrameMode(bool mode = true) { m_wireframe = mode; }`. -/
def SetWireFrameMode (s : ChVisualSystemVSG D) (mode : Bool) : ChVisualSystemVSG D :=
  { s with m_wireframe := mode }

/-- Source:
`void SetLightIntensity(double intensity) { m_lightIntensity = ChClamp(intensity, 0.0, 1.0); }`. -/
def SetLightIntensity [LinearOrder D] [Zero D] [One D] (s : ChVisualSystemVSG D) (intensity : D) :
    ChVisualSystemVSG D :=
  { s with m_lightIntensity := ChClamp intensity 0 1 }

/-- The in-class initialiser `double m_lightIntensity = 1.0;`. -/
def m_lightIntensity_default [One D] : D := 1

/-- Source: `void SetCameraAngleDeg(double angleDeg) { m_cameraAngleDeg = angleDeg; }`. -/
def SetCameraAngleDeg (s : ChVisualSystemVSG D) (angleDeg : D) : ChVisualSystemVSG D :=
  { s with m_cameraAngleDeg := angleDeg }

/-- Source: `void ToggleGuiVisibility() { m_show_gui = !m_show_gui; }`. -/
def ToggleGuiVisibility (s : ChVisualSystemVSG D) : ChVisualSystemVSG D :=
  { s with m_show_gui := !s.m_show_gui }

/-- Source: `bool IsGuiVisible() const { return m_show_gui; }`. -/
def IsGuiVisible (s : ChVisualSystemVSG D) : Bool :=
  s.m_show_gui

end ChVisualSystemVSG

end vsg3d

end chrono

/-! ## The scene-graph toolkit

The values of the third-party toolkit (`vsg`, Vulkan) that the shape factory builds: only what
the factory passes to a constructor is recorded. -/

namespace vsg

/-- A `vsg::vec2`. -/
structure vec2 where
  x : ℚ
  y : ℚ
deriving DecidableEq

/-- A `vsg::vec3`. -/
structure vec3 where
  x : ℚ
  y : ℚ
  z : ℚ
deriving DecidableEq

/-- A `vsg::vec4`, read as a colour. -/
structure vec4 where
  r : ℚ
  g : ℚ
  b : ℚ
  a : ℚ
deriving DecidableEq

/-- Source: `sizeof(vsg::vec2)`: two 32-bit floats. -/
def sizeof_vec2 : Nat := 8

/-- Source: `sizeof(vsg::vec3)`: three 32-bit floats. -/
def sizeof_vec3 : Nat := 12

/-- The `VkFormat` values that occur. -/
inductive VkFormat where
  | VK_FORMAT_R32G32_SFLOAT
  | VK_FORMAT_R32G32B32_SFLOAT
  | VK_FORMAT_R32G32B32A32_SFLOAT
deriving DecidableEq

/-- The `VkShaderStageFlagBits` values that occur. -/
inductive VkShaderStageFlagBits where
  | VK_SHADER_STAGE_VERTEX_BIT
  | VK_SHADER_STAGE_FRAGMENT_BIT
deriving DecidableEq

/-- The `VkDescriptorType` value that occurs. -/
inductive VkDescriptorType where
  | VK_DESCRIPTOR_TYPE_COMBINED_IMAGE_SAMPLER
deriving DecidableEq

/-- The `VkVertexInputRate` value that occurs. -/
inductive VkVertexInputRate where
  | VK_VERTEX_INPUT_RATE_VERTEX
deriving DecidableEq

/-- The `VkPipelineBindPoint` value that occurs. -/
inductive VkPipelineBindPoint where
  | VK_PIPELINE_BIND_POINT_GRAPHICS
deriving DecidableEq

/-- Conversion of an `int` argument to a `uint32_t` parameter. -/
def toUInt32 (n : Int) : Nat :=
  (n % 2 ^ 32).toNat

/-- A `vsg::vec4Array2D`: `width * height` texels, texel `(i, j)` at position `i + j * width`,
with the format of its `vsg::Data::Layout`. -/
structure vec4Array2D where
  width : Nat
  height : Nat
  data : List vec4
  format : VkFormat
deriving DecidableEq

namespace vec4Array2D

/-- Source: `vsg::vec4Array2D::create(width, height, value, layout)`: every texel is `value`. -/
def create (width height : Nat) (value : vec4) (format : VkFormat) : vec4Array2D :=
  { width := width, height := height, data := List.replicate (width * height) value,
    format := format }

/-- Source: `image->set(i, j, value)`. -/
def set (image : vec4Array2D) (i j : Nat) (value : vec4) : vec4Array2D :=
  { image with data := image.data.set (i + j * image.width) value }

/-- Source: `image->at(i, j)`; `none` outside the array. -/
def value_at (image : vec4Array2D) (i j : Nat) : Option vec4 :=
  if i < image.width ∧ j < image.height then image.data[i + j * image.width]? else none

end vec4Array2D

/-- A data array that can be bound as a buffer. -/
inductive Data where
  | vec2Array (values : List vec2)
  | vec3Array (values : List vec3)
  | ushortArray (values : List Nat)
deriving DecidableEq

/-- A `vsg::ShaderStage`: stage, entry point, and the address of the loaded module. -/
structure ShaderStage where
  stage : VkShaderStageFlagBits
  entryPointName : String
  module : Nat
deriving DecidableEq

/-- An entry of `vsg::DescriptorSetLayoutBindings`:
`{ binding, descriptorType, descriptorCount, stageFlags, pImmutableSamplers }`. -/
structure DescriptorSetLayoutBinding where
  binding : Nat
  descriptorType : VkDescriptorType
  descriptorCount : Nat
  stageFlags : VkShaderStageFlagBits
  pImmutableSamplers : Option Nat
deriving DecidableEq

/-- A `vsg::DescriptorSetLayout`. -/
structure DescriptorSetLayout where
  bindings : List DescriptorSetLayoutBinding
deriving DecidableEq

/-- An entry of `vsg::PushConstantRanges`: `{ stageFlags, offset, size }`. -/
structure PushConstantRange where
  stageFlags : VkShaderStageFlagBits
  offset : Nat
  size : Nat
deriving DecidableEq

/-- A `vsg::PipelineLayout`. -/
structure PipelineLayout where
  setLayouts : List DescriptorSetLayout
  pushConstantRanges : List PushConstantRange
deriving DecidableEq

/-- A `VkVertexInputBindingDescription`: `{ binding, stride, inputRate }`. -/
structure VkVertexInputBindingDescription where
  binding : Nat
  stride : Nat
  inputRate : VkVertexInputRate
deriving DecidableEq

/-- A `VkVertexInputAttributeDescription`: `{ location, binding, format, offset }`. -/
structure VkVertexInputAttributeDescription where
  location : Nat
  binding : Nat
  format : VkFormat
  offset : Nat
deriving DecidableEq

/-- An entry of `vsg::GraphicsPipelineStates`; the states created without arguments carry their
defaults. -/
inductive GraphicsPipelineState where
  | VertexInputState (vertexBindingDescriptions : List VkVertexInputBindingDescription)
      (vertexAttributeDescriptions : List VkVertexInputAttributeDescription)
  | InputAssemblyState
  | RasterizationState
  | MultisampleState
  | ColorBlendState
  | DepthStencilState
deriving DecidableEq

/-- A `vsg::GraphicsPipeline`. -/
structure GraphicsPipeline where
  pipelineLayout : PipelineLayout
  shaderStages : List ShaderStage
  pipelineStates : List GraphicsPipelineState
deriving DecidableEq

/-- Source: `graphicsPipeline->getPipelineLayout()`. -/
def GraphicsPipeline.getPipelineLayout (p : GraphicsPipeline) : PipelineLayout :=
  p.pipelineLayout

/-- A `vsg::Sampler` created without arguments. -/
structure Sampler where
deriving DecidableEq

/-- A `vsg::DescriptorImage`: `(sampler, image, dstBinding, dstArrayElement, descriptorType)`. -/
structure DescriptorImage where
  sampler : Sampler
  image : vec4Array2D
  dstBinding : Nat
  dstArrayElement : Nat
  descriptorType : VkDescriptorType
deriving DecidableEq

/-- A `vsg::DescriptorSet`. -/
structure DescriptorSet where
  setLayout : DescriptorSetLayout
  descriptors : List DescriptorImage
deriving DecidableEq

/-- A state command that a `vsg::StateGroup` can hold. -/
inductive StateCommand where
  | BindGraphicsPipeline (pipeline : GraphicsPipeline)
  | BindDescriptorSets (pipelineBindPoint : VkPipelineBindPoint) (layout : PipelineLayout)
      (firstSet : Nat) (descriptorSets : List DescriptorSet)
deriving DecidableEq

/-- A node of the scene graph. -/
inductive Node where
  | BindVertexBuffers (firstBinding : Nat) (arrays : List Data)
  | BindIndexBuffer (indices : Data)
  | DrawIndexed (indexCount instanceCount firstIndex : Nat) (vertexOffset : Int)
      (firstInstance : Nat)
  | Commands (children : List Node)
  | MatrixTransform (matrix : List ℚ) (children : List Node)
  | StateGroup (stateCommands : List StateCommand) (children : List Node)

/-- A `vsg::MatrixTransform` object: its matrix (sixteen entries) and its children. -/
structure MatrixTransform where
  matrix : List ℚ
  children : List Node

namespace MatrixTransform

/-- The transform as a node of the graph. -/
def toNode (t : MatrixTransform) : Node :=
  Node.MatrixTransform t.matrix t.children

/-- Source: `transform->addChild(child)`. -/
def addChild (t : MatrixTransform) (child : Node) : MatrixTransform :=
  { t with children := t.children ++ [child] }

end MatrixTransform

end vsg

namespace vsg

/-- A `vsg::StateGroup` object under construction. -/
structure StateGroup where
  stateCommands : List StateCommand
  children : List Node

namespace StateGroup

/-- Source: `vsg::StateGroup::create()`. -/
def create : StateGroup :=
  { stateCommands := [], children := [] }

/-- Source: `subgraph->add(stateCommand)`. -/
def add (g : StateGroup) (stateCommand : StateCommand) : StateGroup :=
  { g with stateCommands := g.stateCommands ++ [stateCommand] }

/-- Source: `subgraph->addChild(child)`. -/
def addChild (g : StateGroup) (child : Node) : StateGroup :=
  { g with children := g.children ++ [child] }

/-- The state group as a node of the graph. -/
def toNode (g : StateGroup) : Node :=
  Node.StateGroup g.stateCommands g.children

end StateGroup

/-- A `vsg::Commands` object under construction. -/
structure Commands where
  children : List Node

namespace Commands

/-- Source: `vsg::Commands::create()`. -/
def create : Commands :=
  { children := [] }

/-- Source: `drawCommands->addChild(child)`. -/
def addChild (c : Commands) (child : Node) : Commands :=
  { c with children := c.children ++ [child] }

/-- The command list as a node of the graph. -/
def toNode (c : Commands) : Node :=
  Node.Commands c.children

end Commands

end vsg

/-! ## `ChVSGShapeFactory.cpp` -/

namespace chrono

namespace vsg3d

/-- What `stbi_loadf` leaves behind: the pixel buffer (`none` when the pointer is null) and
the values of `texWidth`, `texHeight` and `texChannels` after the call (they start at -1, -1 and
an indeterminate value). -/
structure StbiImage where
  pixels : Option (List ℚ)
  texWidth : Int
  texHeight : Int
  texChannels : Int

/-- Source: `STBI_rgb_alpha`. -/
def STBI_rgb_alpha : Nat := 4

/-- The surroundings of the shape factory: the Chrono data directory, the shader loader of the
toolkit, the file system and the image loader. -/
structure Env where
  GetChronoDataFile : String → String
  ShaderStage_read : vsg.VkShaderStageFlagBits → String → String → Option vsg.ShaderStage
  path_exists : String → Bool
  path_is_file : String → Bool
  stbi_loadf : String → Nat → StbiImage

namespace ChVSGShapeFactory

open vsg

/-- Source: `ChVSGShapeFactory::readVertexShader`. -/
def readVertexShader (env : Env) (filePath : String) : Option ShaderStage :=
  env.ShaderStage_read VkShaderStageFlagBits.VK_SHADER_STAGE_VERTEX_BIT "main" filePath

/-- Source: `ChVSGShapeFactory::readFragmentShader`. -/
def readFragmentShader (env : Env) (filePath : String) : Option ShaderStage :=
  env.ShaderStage_read VkShaderStageFlagBits.VK_SHADER_STAGE_FRAGMENT_BIT "main" filePath

/-- The pixel-copy loops of `createRGBATexture` (source lines 48-58): the running index `k`
walks through the buffer, four floats per texel; a read past the end of the buffer gives 0. -/
def copyPixels (pixels : List ℚ) (texWidth texHeight : Nat) (image : vec4Array2D) :
    vec4Array2D × Nat :=
  (List.range texHeight).foldl
    (fun st j =>
      (List.range texWidth).foldl
        (fun st i =>
          let k := st.2
          let r := pixels.getD k 0
          let g := pixels.getD (k + 1) 0
          let b := pixels.getD (k + 2) 0
          let a := pixels.getD (k + 3) 0
          let col : vec4 := ⟨r, g, b, a⟩
          (st.1.set i j col, k + 4))
        st)
    (image, 0)

/-- Source: `ChVSGShapeFactory::createRGBATexture`: the image read from `filePath` when that is an
existing regular file, a 2 x 2 two-colour image otherwise. -/
def createRGBATexture (env : Env) (filePath : String) : vec4Array2D :=
  if env.path_exists filePath && env.path_is_file filePath then
    let loaded := env.stbi_loadf filePath STBI_rgb_alpha
    let texWidth := loaded.texWidth
    let texHeight := loaded.texHeight
    let image := vec4Array2D.create (toUInt32 texWidth) (toUInt32 texHeight) ⟨0, 0, 0, 0⟩
      VkFormat.VK_FORMAT_R32G32B32A32_SFLOAT
    match loaded.pixels with
    | some pixels =>
      if texWidth > 0 ∧ texHeight > 0 then
        (copyPixels pixels texWidth.toNat texHeight.toNat image).1
      else image
    | none => image
  else
    let image := vec4Array2D.create 2 2 ⟨1, 1, 0, 0⟩ VkFormat.VK_FORMAT_R32G32B32A32_SFLOAT
    let image := image.set 0 0 ⟨0, 0, 1, 0⟩
    let image := image.set 1 1 ⟨0, 0, 1, 0⟩
    image

/-- The table `vertices` of `createBoxTexturedNode` (vertex positions, source lines 141-144). -/
def createBoxTexturedNode_vertices : List vsg.vec3 :=
  [⟨1, -1, -1⟩, ⟨1, 1, -1⟩, ⟨1, 1, 1⟩, ⟨1, -1, 1⟩, ⟨-1, 1, -1⟩, ⟨-1, -1, -1⟩, ⟨-1, -1, 1⟩,
   ⟨-1, 1, 1⟩, ⟨-1, -1, -1⟩, ⟨1, -1, -1⟩, ⟨1, -1, 1⟩, ⟨-1, -1, 1⟩, ⟨1, 1, -1⟩, ⟨-1, 1, -1⟩,
   ⟨-1, 1, 1⟩, ⟨1, 1, 1⟩, ⟨-1, -1, 1⟩, ⟨1, -1, 1⟩, ⟨1, 1, 1⟩, ⟨-1, 1, 1⟩, ⟨1, -1, -1⟩,
   ⟨-1, -1, -1⟩, ⟨-1, 1, -1⟩, ⟨1, 1, -1⟩]

/-- The table `texcoords` of `createBoxTexturedNode` (texture coordinates, source lines 155-157). -/
def createBoxTexturedNode_texcoords : List vsg.vec2 :=
  [⟨0, 0⟩, ⟨1, 0⟩, ⟨1, 1⟩, ⟨0, 1⟩, ⟨0, 0⟩, ⟨1, 0⟩, ⟨1, 1⟩, ⟨0, 1⟩, ⟨0, 0⟩, ⟨1, 0⟩, ⟨1, 1⟩, ⟨0, 1⟩,
   ⟨0, 0⟩, ⟨1, 0⟩, ⟨1, 1⟩, ⟨0, 1⟩, ⟨0, 0⟩, ⟨1, 0⟩, ⟨1, 1⟩, ⟨0, 1⟩, ⟨0, 0⟩, ⟨1, 0⟩, ⟨1, 1⟩, ⟨0, 1⟩]

/-- The table `indices` of `createBoxTexturedNode` (triangle indices, source lines 159-160). -/
def createBoxTexturedNode_indices : List Nat :=
  [0, 1, 2, 0, 2, 3, 4, 5, 6, 4, 6, 7, 8, 9, 10, 8, 10, 11, 12, 13, 14, 12, 14, 15, 16, 17, 18, 16,
   18, 19, 20, 21, 22, 20, 22, 23]

/-- Entries 0 to 15 of the table `vertices` of `createSphereTexturedNode`. -/
def createSphereTexturedNode_vertices_part0 : List vsg.vec3 :=
  [⟨-0.818828, -0.445779, -0.361665⟩, ⟨0.14171, -0.679507, -0.719853⟩,
   ⟨-0.137781, -0.957064, 0.255038⟩, ⟨-0.732933, -0.187495, 0.653953⟩,
   ⟨-0.821265, 0.565674, -0.074407⟩, ⟨-0.280702, 0.261588, -0.92346⟩,
   ⟨0.821265, -0.565674, 0.074407⟩, ⟨0.280702, -0.261588, 0.92346⟩, ⟨-0.14171, 0.679507, 0.719853⟩,
   ⟨0.137781, 0.957064, -0.255038⟩, ⟨0.732933, 0.187495, -0.653953⟩,
   ⟨0.818828, 0.445779, 0.361665⟩, ⟨-0.562282, -0.824567, -0.062675⟩,
   ⟨-0.398002, -0.661425, -0.635698⟩, ⟨0.002309, -0.961951, -0.273211⟩,
   ⟨-0.081697, -0.245646, -0.965911⟩]

/-- Entries 16 to 31 of the table `vertices` of `createSphereTexturedNode`. -/
def createSphereTexturedNode_vertices_part1 : List vsg.vec3 :=
  [⟨-0.646288, -0.108267, -0.755374⟩, ⟨-0.912102, -0.372229, 0.171802⟩,
   ⟨-0.511795, -0.672753, 0.534293⟩, ⟨-0.964021, 0.070469, -0.256317⟩,
   ⟨-0.913535, 0.222286, 0.340651⟩, ⟨-0.647719, 0.486252, -0.586531⟩,
   ⟨0.514104, -0.289196, -0.807504⟩, ⟨0.265817, 0.263965, -0.92718⟩,
   ⟨0.401742, -0.895045, 0.193644⟩, ⟨0.566025, -0.731903, -0.379385⟩,
   ⟨-0.265817, -0.263965, 0.92718⟩, ⟨0.084008, -0.716309, 0.692708⟩,
   ⟨-0.566025, 0.731903, 0.379385⟩, ⟨-0.514104, 0.289196, 0.807504⟩,
   ⟨-0.084008, 0.716309, -0.692708⟩, ⟨-0.401742, 0.895045, -0.193644⟩]

/-- Entries 32 to 47 of the table `vertices` of `createSphereTexturedNode`. -/
def createSphereTexturedNode_vertices_part2 : List vsg.vec3 :=
  [⟨0.913535, -0.222286, -0.340651⟩, ⟨0.647719, -0.486252, 0.586531⟩,
   ⟨0.081697, 0.245646, 0.965911⟩, ⟨-0.002309, 0.961951, 0.273211⟩,
   ⟨0.511795, 0.672753, -0.534293⟩, ⟨0.964021, -0.070469, 0.256317⟩,
   ⟨0.912102, 0.372229, -0.171802⟩, ⟨0.646288, 0.108267, 0.755374⟩, ⟨0.398002, 0.661425, 0.635698⟩,
   ⟨0.562282, 0.824567, 0.062675⟩, ⟨-0.717878, -0.660305, -0.220565⟩,
   ⟨-0.133216, -0.696995, -0.704593⟩, ⟨-0.0704161, -0.997473, -0.00944551⟩,
   ⟨0.0311932, -0.480879, -0.876232⟩, ⟨-0.481834, 0.0796943, -0.872631⟩,
   ⟨-0.899709, -0.425187, -0.0986872⟩]

/-- Entries 48 to 63 of the table `vertices` of `createSphereTexturedNode`. -/
def createSphereTexturedNode_vertices_part3 : List vsg.vec3 :=
  [⟨-0.646989, -0.447143, 0.617631⟩, ⟨-0.926695, -0.19508, -0.321217⟩,
   ⟨-0.901721, 0.409569, 0.138389⟩, ⟨-0.482579, 0.388715, -0.784868⟩,
   ⟨0.340882, -0.503516, -0.793896⟩, ⟨0.519134, 0.234662, -0.821848⟩,
   ⟨0.137203, -0.962697, 0.233218⟩, ⟨0.721092, -0.67446, -0.158523⟩,
   ⟨-0.519134, -0.234662, 0.821848⟩, ⟨0.18957, -0.508296, 0.840059⟩,
   ⟨-0.721092, 0.67446, 0.158523⟩, ⟨-0.340882, 0.503516, 0.793896⟩,
   ⟨-0.18957, 0.508296, -0.840059⟩, ⟨-0.137203, 0.962697, -0.233218⟩,
   ⟨0.901721, -0.409569, -0.138389⟩, ⟨0.482579, -0.388715, 0.784868⟩]

/-- Entries 64 to 79 of the table `vertices` of `createSphereTexturedNode`. -/
def createSphereTexturedNode_vertices_part4 : List vsg.vec3 :=
  [⟨-0.0311932, 0.480879, 0.876232⟩, ⟨0.0704161, 0.997473, 0.00944551⟩,
   ⟨0.646989, 0.447143, -0.617631⟩, ⟨0.927962, -0.330657, 0.171905⟩,
   ⟨0.899709, 0.425187, 0.0986872⟩, ⟨0.481834, -0.0796943, 0.872631⟩,
   ⟨0.133216, 0.696995, 0.704593⟩, ⟨0.363881, 0.926063, -0.0999877⟩,
   ⟨-0.363882, -0.926063, 0.0999876⟩, ⟨-0.632488, -0.575506, -0.518412⟩,
   ⟨0.0748593, -0.853203, -0.516179⟩, ⟨-0.18837, 0.00828639, -0.982063⟩,
   ⟨-0.761543, -0.287984, -0.580618⟩, ⟨-0.855062, -0.290936, 0.429215⟩,
   ⟨-0.337639, -0.847153, 0.410282⟩, ⟨-0.927962, 0.330657, -0.171905⟩]

/-- Entries 80 to 95 of the table `vertices` of `createSphereTexturedNode`. -/
def createSphereTexturedNode_vertices_part5 : List vsg.vec3 :=
  [⟨-0.855807, 0.0180843, 0.516979⟩, ⟨-0.763554, 0.546774, -0.343545⟩,
   ⟨0.64819, -0.052862, -0.759641⟩, ⟨-0.00773751, 0.273174, -0.961934⟩,
   ⟨0.6357, -0.759258, 0.139329⟩, ⟨0.36787, -0.733629, -0.571367⟩,
   ⟨0.00773751, -0.273174, 0.961934⟩, ⟨-0.0279509, -0.869794, 0.492624⟩,
   ⟨-0.36787, 0.733629, 0.571367⟩, ⟨-0.64819, 0.052862, 0.759641⟩,
   ⟨0.0279509, 0.869794, -0.492624⟩, ⟨-0.6357, 0.759258, -0.139329⟩,
   ⟨0.855807, -0.0180843, -0.516979⟩, ⟨0.763554, -0.546774, 0.343545⟩,
   ⟨0.18837, -0.00828639, 0.982063⟩, ⟨-0.0748593, 0.853203, 0.516179⟩]

/-- Entries 96 to 111 of the table `vertices` of `createSphereTexturedNode`. -/
def createSphereTexturedNode_vertices_part6 : List vsg.vec3 :=
  [⟨0.337639, 0.847153, -0.410282⟩, ⟨0.926695, 0.19508, 0.321217⟩, ⟨0.855062, 0.290936, -0.429215⟩,
   ⟨0.761543, 0.287984, 0.580618⟩, ⟨0.632488, 0.575506, 0.518412⟩, ⟨0.717878, 0.660305, 0.220565⟩,
   ⟨0.775129, 0.629193, -0.0573709⟩, ⟨0.748586, 0.549379, -0.371216⟩,
   ⟨0.564676, 0.787188, -0.247944⟩, ⟨0.504851, 0.781231, 0.367156⟩, ⟨0.294395, 0.939228, 0.176586⟩,
   ⟨0.208028, 0.853459, 0.477841⟩, ⟨0.549015, 0.40465, 0.731328⟩, ⟨0.252193, 0.476875, 0.842015⟩,
   ⟨0.382725, 0.186062, 0.904932⟩, ⟨0.846588, 0.0198716, 0.531877⟩]

/-- Entries 112 to 127 of the table `vertices` of `createSphereTexturedNode`. -/
def createSphereTexturedNode_vertices_part7 : List vsg.vec3 :=
  [⟨0.6803, -0.198719, 0.705481⟩, ⟨0.847342, -0.292685, 0.443111⟩, ⟨0.986335, 0.158645, 0.0444327⟩,
   ⟨0.98709, -0.153911, -0.044337⟩, ⟨0.959793, 0.0788291, -0.269412⟩,
   ⟨0.408815, 0.492462, -0.768343⟩, ⟨0.0955832, 0.515361, -0.851626⟩,
   ⟨0.224902, 0.730274, -0.645073⟩, ⟨-0.212423, 0.976282, 0.0418314⟩,
   ⟨-0.508786, 0.855337, 0.0976503⟩, ⟨-0.298791, 0.890513, 0.34309⟩,
   ⟨-0.22733, 0.281183, 0.932339⟩, ⟨-0.410029, 0.0132652, 0.911976⟩,
   ⟨-0.0967976, -0.00963034, 0.995257⟩, ⟨0.384691, -0.632225, 0.672536⟩,
   ⟨0.255374, -0.847139, 0.465983⟩]

/-- Entries 128 to 143 of the table `vertices` of `createSphereTexturedNode`. -/
def createSphereTexturedNode_vertices_part8 : List vsg.vec3 :=
  [⟨0.551736, -0.726192, 0.410163⟩, ⟨0.777852, -0.501647, -0.378546⟩,
   ⟨0.567858, -0.536823, -0.623985⟩, ⟨0.750555, -0.268902, -0.603621⟩,
   ⟨-0.255374, 0.847139, -0.465983⟩, ⟨-0.384691, 0.632225, -0.672536⟩,
   ⟨-0.551736, 0.726192, -0.410163⟩, ⟨-0.567858, 0.536823, 0.623985⟩,
   ⟨-0.777852, 0.501647, 0.378546⟩, ⟨-0.750555, 0.268902, 0.603621⟩,
   ⟨-0.0955832, -0.515361, 0.851626⟩, ⟨-0.408815, -0.492462, 0.768343⟩,
   ⟨-0.224902, -0.730274, 0.645073⟩, ⟨0.508786, -0.855337, -0.0976503⟩,
   ⟨0.212423, -0.976282, -0.0418314⟩, ⟨0.298791, -0.890513, -0.34309⟩]

/-- Entries 144 to 159 of the table `vertices` of `createSphereTexturedNode`. -/
def createSphereTexturedNode_vertices_part9 : List vsg.vec3 :=
  [⟨0.410029, -0.0132652, -0.911976⟩, ⟨0.22733, -0.281183, -0.932339⟩,
   ⟨0.0967976, 0.00963034, -0.995257⟩, ⟨-0.6803, 0.198719, -0.705481⟩,
   ⟨-0.846588, -0.0198716, -0.531877⟩, ⟨-0.847342, 0.292685, -0.443111⟩,
   ⟨-0.98709, 0.153911, 0.044337⟩, ⟨-0.986335, -0.158645, -0.0444327⟩,
   ⟨-0.959793, -0.0788291, 0.269412⟩, ⟨-0.748586, -0.549379, 0.371216⟩,
   ⟨-0.775129, -0.629193, 0.0573709⟩, ⟨-0.564676, -0.787188, 0.247944⟩,
   ⟨-0.382725, -0.186062, -0.904932⟩, ⟨-0.252193, -0.476875, -0.842015⟩,
   ⟨-0.549015, -0.40465, -0.731328⟩, ⟨-0.294395, -0.939228, -0.176586⟩]

/-- Entries 160 to 161 of the table `vertices` of `createSphereTexturedNode`. -/
def createSphereTexturedNode_vertices_part10 : List vsg.vec3 :=
  [⟨-0.504851, -0.781231, -0.367156⟩, ⟨-0.208028, -0.853459, -0.477841⟩]

/-- The table `vertices` of `createSphereTexturedNode` (vertex positions, source lines 251-305), in the order of the initialiser list. -/
def createSphereTexturedNode_vertices : List vsg.vec3 :=
  createSphereTexturedNode_vertices_part0 ++ createSphereTexturedNode_vertices_part1 ++
  createSphereTexturedNode_vertices_part2 ++ createSphereTexturedNode_vertices_part3 ++
  createSphereTexturedNode_vertices_part4 ++ createSphereTexturedNode_vertices_part5 ++
  createSphereTexturedNode_vertices_part6 ++ createSphereTexturedNode_vertices_part7 ++
  createSphereTexturedNode_vertices_part8 ++ createSphereTexturedNode_vertices_part9 ++
  createSphereTexturedNode_vertices_part10

/-- Entries 0 to 15 of the table `texcoords` of `createSphereTexturedNode`. -/
def createSphereTexturedNode_texcoords_part0 : List vsg.vec2 :=
  [⟨0.0793455, 0.808896⟩, ⟨0.282722, 0.877895⟩, ⟨0.227244, 0.708956⟩, ⟨0.0398594, 0.636555⟩,
   ⟨0.904004, 0.761853⟩, ⟨0.880607, 0.937326⟩, ⟨0.404004, 0.738147⟩, ⟨0.380607, 0.562674⟩,
   ⟨0.782722, 0.622105⟩, ⟨0.727244, 0.791044⟩, ⟨0.539859, 0.863445⟩, ⟨0.579345, 0.691104⟩,
   ⟨0.154749, 0.759982⟩, ⟨0.163787, 0.859644⟩, ⟨0.250382, 0.794043⟩, ⟨0.1989, 0.958324⟩]

/-- Entries 16 to 31 of the table `texcoords` of `createSphereTexturedNode`. -/
def createSphereTexturedNode_texcoords_part1 : List vsg.vec2 :=
  [⟨0.0264165, 0.886272⟩, ⟨0.0616677, 0.722521⟩, ⟨0.146495, 0.660289⟩, ⟨0.988387, 0.791255⟩,
   ⟨0.962012, 0.694676⟩, ⟨0.897511, 0.849753⟩, ⟨0.418448, 0.899591⟩, ⟨0.624444, 0.938887⟩,
   ⟨0.317147, 0.718985⟩, ⟨0.354769, 0.811932⟩, ⟨0.124444, 0.561113⟩, ⟨0.268581, 0.628209⟩,
   ⟨0.854769, 0.688068⟩, ⟨0.918448, 0.600409⟩, ⟨0.768581, 0.871791⟩, ⟨0.817147, 0.781015⟩]

/-- Entries 32 to 47 of the table `texcoords` of `createSphereTexturedNode`. -/
def createSphereTexturedNode_texcoords_part2 : List vsg.vec2 :=
  [⟨0.462012, 0.805324⟩, ⟨0.397511, 0.650247⟩, ⟨0.6989, 0.541676⟩, ⟨0.750382, 0.705957⟩,
   ⟨0.646495, 0.839711⟩, ⟨0.488387, 0.708745⟩, ⟨0.561668, 0.777479⟩, ⟨0.526417, 0.613728⟩,
   ⟨0.663787, 0.640356⟩, ⟨0.654748, 0.740018⟩, ⟨0.118355, 0.785395⟩, ⟨0.219943, 0.874435⟩,
   ⟨0.238783, 0.751503⟩, ⟨0.260309, 0.919975⟩, ⟨0.973912, 0.918794⟩, ⟨0.0702628, 0.765732⟩]

/-- Entries 48 to 63 of the table `texcoords` of `createSphereTexturedNode`. -/
def createSphereTexturedNode_texcoords_part3 : List vsg.vec2 :=
  [⟨0.0962468, 0.644046⟩, ⟨0.0330218, 0.802046⟩, ⟨0.932145, 0.727904⟩, ⟨0.89208, 0.893635⟩,
   ⟨0.344717, 0.895975⟩, ⟨0.567567, 0.903528⟩, ⟨0.272531, 0.712537⟩, ⟨0.380316, 0.775337⟩,
   ⟨0.0675671, 0.596472⟩, ⟨0.306814, 0.59126⟩, ⟨0.880316, 0.724663⟩, ⟨0.844717, 0.604025⟩,
   ⟨0.806814, 0.90874⟩, ⟨0.772531, 0.787463⟩, ⟨0.432145, 0.772096⟩, ⟨0.39208, 0.606365⟩]

/-- Entries 64 to 79 of the table `texcoords` of `createSphereTexturedNode`. -/
def createSphereTexturedNode_texcoords_part4 : List vsg.vec2 :=
  [⟨0.760309, 0.580025⟩, ⟨0.738783, 0.748497⟩, ⟨0.596247, 0.855954⟩, ⟨0.445521, 0.722504⟩,
   ⟨0.570263, 0.734268⟩, ⟨0.473912, 0.581206⟩, ⟨0.719943, 0.625565⟩, ⟨0.690412, 0.76594⟩,
   ⟨0.190412, 0.73406⟩, ⟨0.117498, 0.836738⟩, ⟨0.263928, 0.836323⟩, ⟨0.993003, 0.96981⟩,
   ⟨0.0575404, 0.848594⟩, ⟨0.052197, 0.679395⟩, ⟨0.189639, 0.682715⟩, ⟨0.945521, 0.777496⟩]

/-- Entries 80 to 95 of the table `texcoords` of `createSphereTexturedNode`. -/
def createSphereTexturedNode_texcoords_part5 : List vsg.vec2 :=
  [⟨0.996637, 0.663528⟩, ⟨0.901094, 0.805814⟩, ⟨0.487049, 0.887313⟩, ⟨0.754507, 0.955945⟩,
   ⟨0.36094, 0.727753⟩, ⟨0.323975, 0.846793⟩, ⟨0.254507, 0.544055⟩, ⟨0.244887, 0.668019⟩,
   ⟨0.823975, 0.653207⟩, ⟨0.987049, 0.612687⟩, ⟨0.744887, 0.831981⟩, ⟨0.86094, 0.772247⟩,
   ⟨0.496637, 0.836472⟩, ⟨0.401094, 0.694186⟩, ⟨0.493003, 0.53019⟩, ⟨0.763928, 0.663677⟩]

/-- Entries 96 to 111 of the table `texcoords` of `createSphereTexturedNode`. -/
def createSphereTexturedNode_texcoords_part6 : List vsg.vec2 :=
  [⟨0.689639, 0.817285⟩, ⟨0.533022, 0.697954⟩, ⟨0.552197, 0.820605⟩, ⟨0.55754, 0.651406⟩,
   ⟨0.617498, 0.663262⟩, ⟨0.618355, 0.714605⟩, ⟨0.60852, 0.759136⟩, ⟨0.600763, 0.81053⟩,
   ⟨0.650964, 0.789878⟩, ⟨0.65869, 0.690166⟩, ⟨0.701658, 0.721747⟩, ⟨0.711949, 0.67071⟩,
   ⟨0.601089, 0.61945⟩, ⟨0.672578, 0.590685⟩, ⟨0.572019, 0.569961⟩, ⟨0.503735, 0.660743⟩]

/-- Entries 112 to 127 of the table `texcoords` of `createSphereTexturedNode`. -/
def createSphereTexturedNode_texcoords_part7 : List vsg.vec2 :=
  [⟨0.454769, 0.625365⟩, ⟨0.447067, 0.676937⟩, ⟨0.525382, 0.742926⟩, ⟨0.475382, 0.757059⟩,
   ⟨0.513042, 0.793415⟩, ⟨0.639729, 0.889459⟩, ⟨0.720813, 0.912192⟩, ⟨0.702452, 0.861587⟩,
   ⟨0.784098, 0.74334⟩, ⟨0.835405, 0.734434⟩, ⟨0.801522, 0.694263⟩, ⟨0.858208, 0.558882⟩,
   ⟨0.994853, 0.567278⟩, ⟨0.0157823, 0.515506⟩, ⟨0.336998, 0.632603⟩, ⟨0.296599, 0.67285⟩]

/-- Entries 128 to 143 of the table `texcoords` of `createSphereTexturedNode`. -/
def createSphereTexturedNode_texcoords_part8 : List vsg.vec2 :=
  [⟨0.353407, 0.682736⟩, ⟨0.408837, 0.811788⟩, ⟨0.37947, 0.857244⟩, ⟨0.445247, 0.853138⟩,
   ⟨0.796599, 0.82715⟩, ⟨0.836998, 0.867397⟩, ⟨0.853406, 0.817264⟩, ⟨0.87947, 0.642756⟩,
   ⟨0.908837, 0.688212⟩, ⟨0.945247, 0.646862⟩, ⟨0.220813, 0.587808⟩, ⟨0.139729, 0.610541⟩,
   ⟨0.202452, 0.638413⟩, ⟨0.335405, 0.765566⟩, ⟨0.284098, 0.75666⟩, ⟨0.301522, 0.805737⟩]

/-- Entries 144 to 159 of the table `texcoords` of `createSphereTexturedNode`. -/
def createSphereTexturedNode_texcoords_part9 : List vsg.vec2 :=
  [⟨0.494853, 0.932722⟩, ⟨0.358208, 0.941118⟩, ⟨0.515782, 0.984494⟩, ⟨0.954768, 0.874635⟩,
   ⟨0.00373508, 0.839257⟩, ⟨0.947067, 0.823063⟩, ⟨0.975382, 0.742941⟩, ⟨0.0253815, 0.757074⟩,
   ⟨0.0130423, 0.706585⟩, ⟨0.100763, 0.68947⟩, ⟨0.10852, 0.740864⟩, ⟨0.150964, 0.710122⟩,
   ⟨0.0720189, 0.930039⟩, ⟨0.172578, 0.909315⟩, ⟨0.101089, 0.88055⟩, ⟨0.201658, 0.778253⟩]

/-- Entries 160 to 175 of the table `texcoords` of `createSphereTexturedNode`. -/
def createSphereTexturedNode_texcoords_part10 : List vsg.vec2 :=
  [⟨0.15869, 0.809834⟩, ⟨0.211949, 0.82929⟩, ⟨0.022727, 0.118096⟩, ⟨0.068182, 0.118096⟩,
   ⟨0.613636, 0.118096⟩, ⟨0.65909, 0.118096⟩, ⟨0.681818, 0.078731⟩, ⟨0.65909, 0.039365⟩,
   ⟨0.636363, 0.078731⟩, ⟨0.863635, 0.078731⟩, ⟨0.840908, 0.118096⟩, ⟨0.886363, 0.118096⟩,
   ⟨0.818181, 0.078731⟩, ⟨0.772726, 0.078731⟩, ⟨0.749999, 0.118096⟩, ⟨0.795454, 0.118096⟩]

/-- Entries 176 to 191 of the table `texcoords` of `createSphereTexturedNode`. -/
def createSphereTexturedNode_texcoords_part11 : List vsg.vec2 :=
  [⟨0.613636, 0.039365⟩, ⟨0.590909, 0.078731⟩, ⟨0.636363, 0⟩, ⟨0.568181, 0.118096⟩, ⟨0, 0.157461⟩,
   ⟨0.022727, 0.196826⟩, ⟨0.045454, 0.236191⟩, ⟨0.068182, 0.275556⟩, ⟨0.090909, 0.314921⟩,
   ⟨0.65909, 0.354286⟩, ⟨0.681818, 0.393651⟩, ⟨0.704545, 0.433017⟩, ⟨0.727272, 0.472382⟩,
   ⟨0.840908, 0.354286⟩, ⟨0.863635, 0.393651⟩, ⟨0.886363, 0.433017⟩]

/-- Entries 192 to 204 of the table `texcoords` of `createSphereTexturedNode`. -/
def createSphereTexturedNode_texcoords_part12 : List vsg.vec2 :=
  [⟨0.90909, 0.472382⟩, ⟨0.113636, 0.354286⟩, ⟨0.136363, 0.393651⟩, ⟨0.159091, 0.433017⟩,
   ⟨0.181818, 0.472382⟩, ⟨0.295454, 0.354286⟩, ⟨0.318182, 0.393651⟩, ⟨0.340909, 0.433017⟩,
   ⟨0.363636, 0.472382⟩, ⟨0.477272, 0.354286⟩, ⟨0.5, 0.393651⟩, ⟨0.522727, 0.433017⟩,
   ⟨0.545454, 0.472382⟩]

/-- The table `texcoords` of `createSphereTexturedNode` (texture coordinates, source lines 341-393), in the order of the initialiser list. -/
def createSphereTexturedNode_texcoords : List vsg.vec2 :=
  createSphereTexturedNode_texcoords_part0 ++ createSphereTexturedNode_texcoords_part1 ++
  createSphereTexturedNode_texcoords_part2 ++ createSphereTexturedNode_texcoords_part3 ++
  createSphereTexturedNode_texcoords_part4 ++ createSphereTexturedNode_texcoords_part5 ++
  createSphereTexturedNode_texcoords_part6 ++ createSphereTexturedNode_texcoords_part7 ++
  createSphereTexturedNode_texcoords_part8 ++ createSphereTexturedNode_texcoords_part9 ++
  createSphereTexturedNode_texcoords_part10 ++ createSphereTexturedNode_texcoords_part11 ++
  createSphereTexturedNode_texcoords_part12

/-- Entries 0 to 119 of the table `indices` of `createSphereTexturedNode`. -/
def createSphereTexturedNode_indices_part0 : List Nat :=
  [0, 73, 42, 1, 43, 45, 0, 42, 47, 0, 47, 49, 0, 49, 76, 1, 45, 52, 2, 44, 54, 3, 48, 56, 4, 50,
   58, 5, 51, 60, 1, 52, 85, 2, 54, 87, 3, 56, 89, 4, 58, 91, 5, 60, 83, 6, 62, 67, 7, 63, 69, 8,
   64, 70, 9, 65, 71, 10, 66, 98, 38, 102, 68, 38, 103, 102, 36, 96, 104, 41, 105, 101, 41, 106,
   105, 35, 95, 107, 40, 108, 100, 40, 109, 108, 34, 94, 110, 39, 111, 99, 39, 112, 111, 33, 93,
   113, 37, 114, 97, 37, 115, 114, 32, 92, 116, 23, 117, 53, 23, 118, 117, 30, 90, 119, 31, 120,
   61, 31, 121, 120]

/-- Entries 120 to 239 of the table `indices` of `createSphereTexturedNode`. -/
def createSphereTexturedNode_indices_part1 : List Nat :=
  [28, 88, 122, 29, 123, 59, 29, 124, 123, 26, 86, 125, 27, 126, 57, 27, 127, 126, 24, 84, 128, 25,
   129, 55, 25, 130, 129, 22, 82, 131, 30, 132, 90, 30, 133, 132, 21, 81, 134, 28, 135, 88, 28,
   136, 135, 20, 80, 137, 26, 138, 86, 26, 139, 138, 18, 78, 140, 24, 141, 84, 24, 142, 141, 14,
   74, 143, 22, 144, 82, 22, 145, 144, 15, 75, 146, 16, 147, 46, 16, 148, 147, 19, 79, 149, 19,
   150, 79, 19, 151, 150, 17, 77, 152, 17, 153, 77, 17, 154, 153, 12, 72, 155, 15, 156, 75, 15,
   157, 156, 13, 73, 158, 12, 159, 72, 12, 160, 159, 13, 43, 161]

/-- Entries 240 to 359 of the table `indices` of `createSphereTexturedNode`. -/
def createSphereTexturedNode_indices_part2 : List Nat :=
  [161, 74, 14, 161, 43, 74, 43, 1, 74, 159, 161, 14, 159, 160, 161, 160, 13, 161, 72, 44, 2, 72,
   159, 44, 159, 14, 44, 158, 76, 16, 158, 73, 76, 73, 0, 76, 156, 158, 16, 156, 157, 158, 157, 13,
   158, 75, 46, 5, 75, 156, 46, 156, 16, 46, 155, 78, 18, 155, 72, 78, 72, 2, 78, 153, 155, 18,
   153, 154, 155, 154, 12, 155, 77, 48, 3, 77, 153, 48, 153, 18, 48, 152, 80, 20, 152, 77, 80, 77,
   3, 80, 150, 152, 20, 150, 151, 152, 151, 17, 152, 79, 50, 4, 79, 150, 50, 150, 20, 50, 149, 81,
   21, 149, 79, 81, 79, 4, 81, 147, 149, 21]

/-- Entries 360 to 479 of the table `indices` of `createSphereTexturedNode`. -/
def createSphereTexturedNode_indices_part3 : List Nat :=
  [147, 148, 149, 148, 19, 149, 46, 51, 5, 46, 147, 51, 147, 21, 51, 146, 83, 23, 146, 75, 83, 75,
   5, 83, 144, 146, 23, 144, 145, 146, 145, 15, 146, 82, 53, 10, 82, 144, 53, 144, 23, 53, 143, 85,
   25, 143, 74, 85, 74, 1, 85, 141, 143, 25, 141, 142, 143, 142, 14, 143, 84, 55, 6, 84, 141, 55,
   141, 25, 55, 140, 87, 27, 140, 78, 87, 78, 2, 87, 138, 140, 27, 138, 139, 140, 139, 18, 140, 86,
   57, 7, 86, 138, 57, 138, 27, 57, 137, 89, 29, 137, 80, 89, 80, 3, 89, 135, 137, 29, 135, 136,
   137, 136, 20, 137, 88, 59, 8, 88, 135, 59]

/-- Entries 480 to 599 of the table `indices` of `createSphereTexturedNode`. -/
def createSphereTexturedNode_indices_part4 : List Nat :=
  [135, 29, 59, 134, 91, 31, 134, 81, 91, 81, 4, 91, 132, 134, 31, 132, 133, 134, 133, 21, 134, 90,
   61, 9, 90, 132, 61, 132, 31, 61, 131, 92, 32, 131, 82, 92, 82, 10, 92, 129, 131, 32, 129, 130,
   131, 130, 22, 131, 55, 62, 6, 55, 129, 62, 129, 32, 62, 128, 93, 33, 128, 84, 93, 84, 6, 93,
   126, 128, 33, 126, 127, 128, 127, 24, 128, 57, 63, 7, 57, 126, 63, 126, 33, 63, 125, 94, 34,
   125, 86, 94, 86, 7, 94, 123, 125, 34, 123, 124, 125, 124, 26, 125, 59, 64, 8, 59, 123, 64, 123,
   34, 64, 122, 95, 35, 122, 88, 95, 88, 8, 95]

/-- Entries 600 to 719 of the table `indices` of `createSphereTexturedNode`. -/
def createSphereTexturedNode_indices_part5 : List Nat :=
  [120, 122, 35, 120, 121, 122, 121, 28, 122, 61, 65, 9, 61, 120, 65, 120, 35, 65, 119, 96, 36,
   119, 90, 96, 90, 9, 96, 117, 119, 36, 117, 118, 119, 118, 30, 119, 53, 66, 10, 53, 117, 66, 117,
   36, 66, 116, 98, 38, 116, 92, 98, 92, 10, 98, 114, 116, 38, 114, 115, 116, 115, 32, 116, 97, 68,
   11, 97, 114, 68, 114, 38, 68, 113, 67, 37, 113, 93, 67, 93, 6, 67, 111, 113, 37, 111, 112, 113,
   112, 33, 113, 99, 97, 11, 99, 111, 97, 111, 37, 97, 110, 69, 39, 110, 94, 69, 94, 7, 69, 108,
   110, 39, 108, 109, 110, 109, 34, 110, 100, 99, 11]

/-- Entries 720 to 839 of the table `indices` of `createSphereTexturedNode`. -/
def createSphereTexturedNode_indices_part6 : List Nat :=
  [100, 108, 99, 108, 39, 99, 107, 70, 40, 107, 95, 70, 95, 8, 70, 105, 107, 40, 105, 106, 107,
   106, 35, 107, 101, 100, 11, 101, 105, 100, 105, 40, 100, 104, 71, 41, 104, 96, 71, 96, 9, 71,
   102, 104, 41, 102, 103, 104, 103, 36, 104, 68, 101, 11, 68, 102, 101, 102, 41, 101, 98, 103, 38,
   98, 66, 103, 66, 36, 103, 71, 106, 41, 71, 65, 106, 65, 35, 106, 70, 109, 40, 70, 64, 109, 64,
   34, 109, 69, 112, 39, 69, 63, 112, 63, 33, 112, 67, 115, 37, 67, 62, 115, 62, 32, 115, 83, 118,
   23, 83, 60, 118, 60, 30, 118, 91, 121, 31, 91, 58, 121]

/-- Entries 840 to 959 of the table `indices` of `createSphereTexturedNode`. -/
def createSphereTexturedNode_indices_part7 : List Nat :=
  [58, 28, 121, 89, 124, 29, 89, 56, 124, 56, 26, 124, 87, 127, 27, 87, 54, 127, 54, 24, 127, 85,
   130, 25, 85, 52, 130, 52, 22, 130, 60, 133, 30, 60, 51, 133, 51, 21, 133, 58, 136, 28, 58, 50,
   136, 50, 20, 136, 56, 139, 26, 56, 48, 139, 48, 18, 139, 54, 142, 24, 54, 44, 142, 44, 14, 142,
   52, 145, 22, 52, 45, 145, 45, 15, 145, 76, 148, 16, 76, 49, 148, 49, 19, 148, 49, 151, 19, 49,
   47, 151, 47, 17, 151, 47, 154, 17, 47, 42, 154, 42, 12, 154, 45, 157, 15, 45, 43, 157, 43, 13,
   157, 42, 160, 12, 42, 73, 160, 73, 13, 160]

/-- The table `indices` of `createSphereTexturedNode` (triangle indices, source lines 395-439), in the order of the initialiser list. -/
def createSphereTexturedNode_indices : List Nat :=
  createSphereTexturedNode_indices_part0 ++ createSphereTexturedNode_indices_part1 ++
  createSphereTexturedNode_indices_part2 ++ createSphereTexturedNode_indices_part3 ++
  createSphereTexturedNode_indices_part4 ++ createSphereTexturedNode_indices_part5 ++
  createSphereTexturedNode_indices_part6 ++ createSphereTexturedNode_indices_part7

/-- Entries 0 to 15 of the table `vertices` of `createCylinderTexturedNode`. -/
def createCylinderTexturedNode_vertices_part0 : List vsg.vec3 :=
  [⟨1, 0, -1⟩, ⟨1, 0, 1⟩, ⟨0.980785, -0.19509, -1⟩, ⟨0.980785, -0.19509, 1⟩,
   ⟨0.92388, -0.382683, -1⟩, ⟨0.92388, -0.382683, 1⟩, ⟨0.83147, -0.55557, -1⟩,
   ⟨0.83147, -0.55557, 1⟩, ⟨0.707107, -0.707107, -1⟩, ⟨0.707107, -0.707107, 1⟩,
   ⟨0.55557, -0.83147, -1⟩, ⟨0.55557, -0.83147, 1⟩, ⟨0.382683, -0.923879, -1⟩,
   ⟨0.382683, -0.923879, 1⟩, ⟨0.19509, -0.980785, -1⟩, ⟨0.19509, -0.980785, 1⟩]

/-- Entries 16 to 31 of the table `vertices` of `createCylinderTexturedNode`. -/
def createCylinderTexturedNode_vertices_part1 : List vsg.vec3 :=
  [⟨0, -1, -1⟩, ⟨0, -1, 1⟩, ⟨-0.19509, -0.980785, -1⟩, ⟨-0.19509, -0.980785, 1⟩,
   ⟨-0.382683, -0.923879, -1⟩, ⟨-0.382683, -0.923879, 1⟩, ⟨-0.55557, -0.83147, -1⟩,
   ⟨-0.55557, -0.83147, 1⟩, ⟨-0.707107, -0.707107, -1⟩, ⟨-0.707107, -0.707107, 1⟩,
   ⟨-0.83147, -0.55557, -1⟩, ⟨-0.83147, -0.55557, 1⟩, ⟨-0.92388, -0.382683, -1⟩,
   ⟨-0.92388, -0.382683, 1⟩, ⟨-0.980785, -0.19509, -1⟩, ⟨-0.980785, -0.19509, 1⟩]

/-- Entries 32 to 47 of the table `vertices` of `createCylinderTexturedNode`. -/
def createCylinderTexturedNode_vertices_part2 : List vsg.vec3 :=
  [⟨-1, 0, -1⟩, ⟨-1, 0, 1⟩, ⟨-0.980785, 0.195091, -1⟩, ⟨-0.980785, 0.195091, 1⟩,
   ⟨-0.923879, 0.382684, -1⟩, ⟨-0.923879, 0.382684, 1⟩, ⟨-0.831469, 0.555571, -1⟩,
   ⟨-0.831469, 0.555571, 1⟩, ⟨-0.707106, 0.707107, -1⟩, ⟨-0.707106, 0.707107, 1⟩,
   ⟨-0.55557, 0.83147, -1⟩, ⟨-0.55557, 0.83147, 1⟩, ⟨-0.382683, 0.92388, -1⟩,
   ⟨-0.382683, 0.92388, 1⟩, ⟨-0.195089, 0.980785, -1⟩, ⟨-0.195089, 0.980785, 1⟩]

/-- Entries 48 to 63 of the table `vertices` of `createCylinderTexturedNode`. -/
def createCylinderTexturedNode_vertices_part3 : List vsg.vec3 :=
  [⟨1e-6, 1, -1⟩, ⟨1e-6, 1, 1⟩, ⟨0.195091, 0.980785, -1⟩, ⟨0.195091, 0.980785, 1⟩,
   ⟨0.382684, 0.923879, -1⟩, ⟨0.382684, 0.923879, 1⟩, ⟨0.555571, 0.831469, -1⟩,
   ⟨0.555571, 0.831469, 1⟩, ⟨0.707108, 0.707106, -1⟩, ⟨0.707108, 0.707106, 1⟩,
   ⟨0.83147, 0.555569, -1⟩, ⟨0.83147, 0.555569, 1⟩, ⟨0.92388, 0.382682, -1⟩,
   ⟨0.92388, 0.382682, 1⟩, ⟨0.980786, 0.195089, -1⟩, ⟨0.980786, 0.195089, 1⟩]

/-- The table `vertices` of `createCylinderTexturedNode` (vertex positions, source lines 527-590), in the order of the initialiser list. -/
def createCylinderTexturedNode_vertices : List vsg.vec3 :=
  createCylinderTexturedNode_vertices_part0 ++ createCylinderTexturedNode_vertices_part1 ++
  createCylinderTexturedNode_vertices_part2 ++ createCylinderTexturedNode_vertices_part3

/-- Entries 0 to 15 of the table `texcoords` of `createCylinderTexturedNode`. -/
def createCylinderTexturedNode_texcoords_part0 : List vsg.vec2 :=
  [⟨1, 1⟩, ⟨0.96875, 0.5⟩, ⟨1, 0.5⟩, ⟨0.96875, 1⟩, ⟨0.9375, 0.5⟩, ⟨0.9375, 1⟩, ⟨0.90625, 0.5⟩,
   ⟨0.90625, 1⟩, ⟨0.875, 0.5⟩, ⟨0.875, 1⟩, ⟨0.84375, 0.5⟩, ⟨0.84375, 1⟩, ⟨0.8125, 0.5⟩,
   ⟨0.8125, 1⟩, ⟨0.78125, 0.5⟩, ⟨0.78125, 1⟩]

/-- Entries 16 to 31 of the table `texcoords` of `createCylinderTexturedNode`. -/
def createCylinderTexturedNode_texcoords_part1 : List vsg.vec2 :=
  [⟨0.75, 0.5⟩, ⟨0.75, 1⟩, ⟨0.71875, 0.5⟩, ⟨0.71875, 1⟩, ⟨0.6875, 0.5⟩, ⟨0.6875, 1⟩,
   ⟨0.65625, 0.5⟩, ⟨0.65625, 1⟩, ⟨0.625, 0.5⟩, ⟨0.625, 1⟩, ⟨0.59375, 0.5⟩, ⟨0.59375, 1⟩,
   ⟨0.5625, 0.5⟩, ⟨0.5625, 1⟩, ⟨0.53125, 0.5⟩, ⟨0.53125, 1⟩]

/-- Entries 32 to 47 of the table `texcoords` of `createCylinderTexturedNode`. -/
def createCylinderTexturedNode_texcoords_part2 : List vsg.vec2 :=
  [⟨0.5, 0.5⟩, ⟨0.5, 1⟩, ⟨0.46875, 0.5⟩, ⟨0.46875, 1⟩, ⟨0.4375, 0.5⟩, ⟨0.4375, 1⟩, ⟨0.40625, 0.5⟩,
   ⟨0.40625, 1⟩, ⟨0.375, 0.5⟩, ⟨0.375, 1⟩, ⟨0.34375, 0.5⟩, ⟨0.34375, 1⟩, ⟨0.3125, 0.5⟩,
   ⟨0.3125, 1⟩, ⟨0.28125, 0.5⟩, ⟨0.28125, 1⟩]

/-- Entries 48 to 63 of the table `texcoords` of `createCylinderTexturedNode`. -/
def createCylinderTexturedNode_texcoords_part3 : List vsg.vec2 :=
  [⟨0.25, 0.5⟩, ⟨0.25, 1⟩, ⟨0.21875, 0.5⟩, ⟨0.21875, 1⟩, ⟨0.1875, 0.5⟩, ⟨0.1875, 1⟩,
   ⟨0.15625, 0.5⟩, ⟨0.15625, 1⟩, ⟨0.125, 0.5⟩, ⟨0.125, 1⟩, ⟨0.09375, 0.5⟩, ⟨0.09375, 1⟩,
   ⟨0.0625, 0.5⟩, ⟨0.028269, 0.341844⟩, ⟨0.158156, 0.028269⟩, ⟨0.471731, 0.158156⟩]

/-- Entries 64 to 79 of the table `texcoords` of `createCylinderTexturedNode`. -/
def createCylinderTexturedNode_texcoords_part4 : List vsg.vec2 :=
  [⟨0.0625, 1⟩, ⟨0.03125, 0.5⟩, ⟨0.03125, 1⟩, ⟨0, 0.5⟩, ⟨0.796822, 0.014612⟩, ⟨0.514611, 0.203179⟩,
   ⟨0.703179, 0.485389⟩, ⟨0.341844, 0.471731⟩, ⟨0.296822, 0.485388⟩, ⟨0.25, 0.49⟩,
   ⟨0.203179, 0.485389⟩, ⟨0.158156, 0.471731⟩, ⟨0.116663, 0.449553⟩, ⟨0.080295, 0.419706⟩,
   ⟨0.050447, 0.383337⟩, ⟨0.014612, 0.296822⟩]

/-- Entries 80 to 95 of the table `texcoords` of `createCylinderTexturedNode`. -/
def createCylinderTexturedNode_texcoords_part5 : List vsg.vec2 :=
  [⟨0.01, 0.25⟩, ⟨0.014611, 0.203179⟩, ⟨0.028269, 0.158156⟩, ⟨0.050447, 0.116663⟩,
   ⟨0.080294, 0.080294⟩, ⟨0.116663, 0.050447⟩, ⟨0.203178, 0.014612⟩, ⟨0.25, 0.01⟩,
   ⟨0.296822, 0.014612⟩, ⟨0.341844, 0.028269⟩, ⟨0.383337, 0.050447⟩, ⟨0.419706, 0.080294⟩,
   ⟨0.449553, 0.116663⟩, ⟨0.485388, 0.203178⟩, ⟨0.49, 0.25⟩, ⟨0.485388, 0.296822⟩]

/-- Entries 96 to 111 of the table `texcoords` of `createCylinderTexturedNode`. -/
def createCylinderTexturedNode_texcoords_part6 : List vsg.vec2 :=
  [⟨0.471731, 0.341844⟩, ⟨0.449553, 0.383337⟩, ⟨0.419706, 0.419706⟩, ⟨0.383337, 0.449553⟩, ⟨0, 1⟩,
   ⟨0.75, 0.49⟩, ⟨0.796822, 0.485388⟩, ⟨0.841844, 0.471731⟩, ⟨0.883337, 0.449553⟩,
   ⟨0.919706, 0.419706⟩, ⟨0.949553, 0.383337⟩, ⟨0.971731, 0.341844⟩, ⟨0.985388, 0.296822⟩,
   ⟨0.99, 0.25⟩, ⟨0.985388, 0.203178⟩, ⟨0.971731, 0.158156⟩]

/-- Entries 112 to 127 of the table `texcoords` of `createCylinderTexturedNode`. -/
def createCylinderTexturedNode_texcoords_part7 : List vsg.vec2 :=
  [⟨0.949553, 0.116663⟩, ⟨0.919706, 0.080294⟩, ⟨0.883337, 0.050447⟩, ⟨0.841844, 0.028269⟩,
   ⟨0.75, 0.01⟩, ⟨0.703178, 0.014612⟩, ⟨0.658156, 0.028269⟩, ⟨0.616663, 0.050447⟩,
   ⟨0.580294, 0.080294⟩, ⟨0.550447, 0.116663⟩, ⟨0.528269, 0.158156⟩, ⟨0.51, 0.25⟩,
   ⟨0.514612, 0.296822⟩, ⟨0.528269, 0.341844⟩, ⟨0.550447, 0.383337⟩, ⟨0.580295, 0.419706⟩]

/-- Entries 128 to 129 of the table `texcoords` of `createCylinderTexturedNode`. -/
def createCylinderTexturedNode_texcoords_part8 : List vsg.vec2 :=
  [⟨0.616663, 0.449553⟩, ⟨0.658156, 0.471731⟩]

/-- The table `texcoords` of `createCylinderTexturedNode` (texture coordinates, source lines 594-723), in the order of the initialiser list. -/
def createCylinderTexturedNode_texcoords : List vsg.vec2 :=
  createCylinderTexturedNode_texcoords_part0 ++ createCylinderTexturedNode_texcoords_part1 ++
  createCylinderTexturedNode_texcoords_part2 ++ createCylinderTexturedNode_texcoords_part3 ++
  createCylinderTexturedNode_texcoords_part4 ++ createCylinderTexturedNode_texcoords_part5 ++
  createCylinderTexturedNode_texcoords_part6 ++ createCylinderTexturedNode_texcoords_part7 ++
  createCylinderTexturedNode_texcoords_part8

/-- Entries 0 to 119 of the table `indices` of `createCylinderTexturedNode`. -/
def createCylinderTexturedNode_indices_part0 : List Nat :=
  [1, 2, 0, 3, 4, 2, 5, 6, 4, 7, 8, 6, 9, 10, 8, 11, 12, 10, 13, 14, 12, 15, 16, 14, 17, 18, 16,
   19, 20, 18, 21, 22, 20, 23, 24, 22, 25, 26, 24, 27, 28, 26, 29, 30, 28, 31, 32, 30, 33, 34, 32,
   35, 36, 34, 37, 38, 36, 39, 40, 38, 41, 42, 40, 43, 44, 42, 45, 46, 44, 47, 48, 46, 49, 50, 48,
   51, 52, 50, 53, 54, 52, 55, 56, 54, 57, 58, 56, 59, 60, 58, 53, 37, 21, 61, 62, 60, 63, 0, 62,
   30, 46, 62, 1, 3, 2, 3, 5, 4, 5, 7, 6, 7, 9, 8, 9, 11, 10, 11, 13, 12]

/-- Entries 120 to 239 of the table `indices` of `createCylinderTexturedNode`. -/
def createCylinderTexturedNode_indices_part1 : List Nat :=
  [13, 15, 14, 15, 17, 16, 17, 19, 18, 19, 21, 20, 21, 23, 22, 23, 25, 24, 25, 27, 26, 27, 29, 28,
   29, 31, 30, 31, 33, 32, 33, 35, 34, 35, 37, 36, 37, 39, 38, 39, 41, 40, 41, 43, 42, 43, 45, 44,
   45, 47, 46, 47, 49, 48, 49, 51, 50, 51, 53, 52, 53, 55, 54, 55, 57, 56, 57, 59, 58, 59, 61, 60,
   5, 3, 1, 1, 63, 5, 63, 61, 5, 61, 59, 57, 57, 55, 61, 55, 53, 61, 53, 51, 49, 49, 47, 53, 47,
   45, 53, 45, 43, 37, 43, 41, 37, 41, 39, 37, 37, 35, 33, 33, 31, 29, 29, 27, 25, 25, 23, 21]

/-- Entries 240 to 359 of the table `indices` of `createCylinderTexturedNode`. -/
def createCylinderTexturedNode_indices_part2 : List Nat :=
  [21, 19, 17, 17, 15, 21, 15, 13, 21, 13, 11, 5, 11, 9, 5, 9, 7, 5, 37, 33, 21, 33, 29, 21, 29,
   25, 21, 5, 61, 53, 53, 45, 37, 21, 13, 5, 5, 53, 21, 61, 63, 62, 63, 1, 0, 62, 0, 2, 2, 4, 6, 6,
   8, 10, 10, 12, 6, 12, 14, 6, 14, 16, 18, 18, 20, 14, 20, 22, 14, 22, 24, 26, 26, 28, 30, 30, 32,
   34, 34, 36, 30, 36, 38, 30, 38, 40, 42, 42, 44, 46, 46, 48, 50, 50, 52, 46, 52, 54, 46, 54, 56,
   58, 58, 60, 62, 62, 2, 6, 22, 26, 30, 38, 42, 46, 54, 58, 46, 58, 62, 46]

/-- Entries 360 to 371 of the table `indices` of `createCylinderTexturedNode`. -/
def createCylinderTexturedNode_indices_part3 : List Nat :=
  [62, 6, 14, 14, 22, 30, 30, 38, 46, 62, 14, 30]

/-- The table `indices` of `createCylinderTexturedNode` (triangle indices, source lines 725-739), in the order of the initialiser list. -/
def createCylinderTexturedNode_indices : List Nat :=
  createCylinderTexturedNode_indices_part0 ++ createCylinderTexturedNode_indices_part1 ++
  createCylinderTexturedNode_indices_part2 ++ createCylinderTexturedNode_indices_part3

/-- The table `vertices` of `createBoxPhongNode` (vertex positions, source lines 828-831). -/
def createBoxPhongNode_vertices : List vsg.vec3 :=
  [⟨1, -1, -1⟩, ⟨1, 1, -1⟩, ⟨1, 1, 1⟩, ⟨1, -1, 1⟩, ⟨-1, 1, -1⟩, ⟨-1, -1, -1⟩, ⟨-1, -1, 1⟩,
   ⟨-1, 1, 1⟩, ⟨-1, -1, -1⟩, ⟨1, -1, -1⟩, ⟨1, -1, 1⟩, ⟨-1, -1, 1⟩, ⟨1, 1, -1⟩, ⟨-1, 1, -1⟩,
   ⟨-1, 1, 1⟩, ⟨1, 1, 1⟩, ⟨-1, -1, 1⟩, ⟨1, -1, 1⟩, ⟨1, 1, 1⟩, ⟨-1, 1, 1⟩, ⟨1, -1, -1⟩,
   ⟨-1, -1, -1⟩, ⟨-1, 1, -1⟩, ⟨1, 1, -1⟩]

/-- The table `normals` of `createBoxPhongNode` (vertex normals, source lines 834-837). -/
def createBoxPhongNode_normals : List vsg.vec3 :=
  [⟨1, 0, 0⟩, ⟨1, 0, 0⟩, ⟨1, 0, 0⟩, ⟨1, 0, 0⟩, ⟨-1, 0, 0⟩, ⟨-1, 0, 0⟩, ⟨-1, 0, 0⟩, ⟨-1, 0, 0⟩,
   ⟨0, -1, 0⟩, ⟨0, -1, 0⟩, ⟨0, -1, 0⟩, ⟨0, -1, 0⟩, ⟨0, 1, 0⟩, ⟨0, 1, 0⟩, ⟨0, 1, 0⟩, ⟨0, 1, 0⟩,
   ⟨0, 0, 1⟩, ⟨0, 0, 1⟩, ⟨0, 0, 1⟩, ⟨0, 0, 1⟩, ⟨0, 0, -1⟩, ⟨0, 0, -1⟩, ⟨0, 0, -1⟩, ⟨0, 0, -1⟩]

/-- The table `texcoords` of `createBoxPhongNode` (texture coordinates, source lines 843-845). -/
def createBoxPhongNode_texcoords : List vsg.vec2 :=
  [⟨0, 0⟩, ⟨1, 0⟩, ⟨1, 1⟩, ⟨0, 1⟩, ⟨0, 0⟩, ⟨1, 0⟩, ⟨1, 1⟩, ⟨0, 1⟩, ⟨0, 0⟩, ⟨1, 0⟩, ⟨1, 1⟩, ⟨0, 1⟩,
   ⟨0, 0⟩, ⟨1, 0⟩, ⟨1, 1⟩, ⟨0, 1⟩, ⟨0, 0⟩, ⟨1, 0⟩, ⟨1, 1⟩, ⟨0, 1⟩, ⟨0, 0⟩, ⟨1, 0⟩, ⟨1, 1⟩, ⟨0, 1⟩]

/-- The table `indices` of `createBoxPhongNode` (triangle indices, source lines 848-849). -/
def createBoxPhongNode_indices : List Nat :=
  [0, 1, 2, 0, 2, 3, 4, 5, 6, 4, 6, 7, 8, 9, 10, 8, 10, 11, 12, 13, 14, 12, 14, 15, 16, 17, 18, 16,
   18, 19, 20, 21, 22, 20, 22, 23]

/-- Source: `ChVSGShapeFactory::createBoxTexturedNode` (lines 72-178). The result is the returned node
(`none` for the empty `ref_ptr`) and the `transform` object after the call. The sizes passed as
`uint32_t` are far below 2^32. -/
def createBoxTexturedNode (env : Env) (color : vec4) (texFilePath : String)
    (transform : MatrixTransform) :
    Option Node × MatrixTransform :=
  let vertexShader := readVertexShader env (env.GetChronoDataFile "vsg/shaders/vert_PushConstants.spv")
  let fragmentShader := readFragmentShader env (env.GetChronoDataFile "vsg/shaders/frag_PushConstants.spv")
  match vertexShader, fragmentShader with
  | some vertexShader, some fragmentShader =>
    let textureData := createRGBATexture env (env.GetChronoDataFile texFilePath)
    -- set up graphics pipeline
    let descriptorBindings : List DescriptorSetLayoutBinding :=
      [⟨0, VkDescriptorType.VK_DESCRIPTOR_TYPE_COMBINED_IMAGE_SAMPLER, 1,
        VkShaderStageFlagBits.VK_SHADER_STAGE_FRAGMENT_BIT, none⟩]
    let descriptorSetLayout : DescriptorSetLayout := ⟨descriptorBindings⟩
    let descriptorSetLayouts := [descriptorSetLayout]
    let pushConstantRanges : List PushConstantRange :=
      [⟨VkShaderStageFlagBits.VK_SHADER_STAGE_VERTEX_BIT, 0, 128⟩]
    let pipelineLayout : PipelineLayout := ⟨descriptorSetLayouts, pushConstantRanges⟩
    let vertexBindingsDescriptions : List VkVertexInputBindingDescription :=
      [⟨0, sizeof_vec3, VkVertexInputRate.VK_VERTEX_INPUT_RATE_VERTEX⟩,
       ⟨1, sizeof_vec3, VkVertexInputRate.VK_VERTEX_INPUT_RATE_VERTEX⟩,
       ⟨2, sizeof_vec2, VkVertexInputRate.VK_VERTEX_INPUT_RATE_VERTEX⟩]
    let vertexAttributeDescriptions : List VkVertexInputAttributeDescription :=
      [⟨0, 0, VkFormat.VK_FORMAT_R32G32B32_SFLOAT, 0⟩,
       ⟨1, 1, VkFormat.VK_FORMAT_R32G32B32_SFLOAT, 0⟩,
       ⟨2, 2, VkFormat.VK_FORMAT_R32G32_SFLOAT, 0⟩]
    let pipelineStates : List GraphicsPipelineState :=
      [GraphicsPipelineState.VertexInputState vertexBindingsDescriptions
         vertexAttributeDescriptions,
       GraphicsPipelineState.InputAssemblyState,
       GraphicsPipelineState.RasterizationState,
       GraphicsPipelineState.MultisampleState,
       GraphicsPipelineState.ColorBlendState,
       GraphicsPipelineState.DepthStencilState]
    let graphicsPipeline : GraphicsPipeline :=
      ⟨pipelineLayout, [vertexShader, fragmentShader], pipelineStates⟩
    let bindGraphicsPipeline := StateCommand.BindGraphicsPipeline graphicsPipeline
    -- create texture image and associated DescriptorSets and binding
    let texture : DescriptorImage :=
      ⟨Sampler.mk, textureData, 0, 0, VkDescriptorType.VK_DESCRIPTOR_TYPE_COMBINED_IMAGE_SAMPLER⟩
    let descriptorSet : DescriptorSet := ⟨descriptorSetLayout, [texture]⟩
    let bindDescriptorSets := StateCommand.BindDescriptorSets
      VkPipelineBindPoint.VK_PIPELINE_BIND_POINT_GRAPHICS graphicsPipeline.getPipelineLayout 0
      [descriptorSet]
    -- create StateGroup as the root of the scene/command graph
    let subgraph := StateGroup.create
    let subgraph := subgraph.add bindGraphicsPipeline
    let subgraph := subgraph.add bindDescriptorSets
    -- set up vertex and index arrays
    let vertices := createBoxTexturedNode_vertices
    let colors := List.replicate vertices.length (⟨color.r, color.g, color.b⟩ : vec3)
    let texcoords := createBoxTexturedNode_texcoords
    let indices := createBoxTexturedNode_indices
    -- setup geometry
    let drawCommands := Commands.create
    let drawCommands := drawCommands.addChild (Node.BindVertexBuffers 0
      [Data.vec3Array vertices, Data.vec3Array colors, Data.vec2Array texcoords])
    let drawCommands := drawCommands.addChild (Node.BindIndexBuffer (Data.ushortArray indices))
    let drawCommands := drawCommands.addChild (Node.DrawIndexed indices.length 1 0 0 0)
    -- add drawCommands to transform
    let transform := transform.addChild drawCommands.toNode
    let subgraph := subgraph.addChild transform.toNode
    (some subgraph.toNode, transform)
  | _, _ => (none, transform)

/-- Source: `ChVSGShapeFactory::createSphereTexturedNode` (lines 181-455). The result is the returned node
(`none` for the empty `ref_ptr`) and the `transform` object after the call. The sizes passed as
`uint32_t` are far below 2^32. -/
def createSphereTexturedNode (env : Env) (color : vec4) (texFilePath : String)
    (transform : MatrixTransform) :
    Option Node × MatrixTransform :=
  let vertexShader := readVertexShader env (env.GetChronoDataFile "vsg/shaders/vert_PushConstants.spv")
  let fragmentShader := readFragmentShader env (env.GetChronoDataFile "vsg/shaders/frag_PushConstants.spv")
  match vertexShader, fragmentShader with
  | some vertexShader, some fragmentShader =>
    let textureData := createRGBATexture env (env.GetChronoDataFile texFilePath)
    -- set up graphics pipeline
    let descriptorBindings : List DescriptorSetLayoutBinding :=
      [⟨0, VkDescriptorType.VK_DESCRIPTOR_TYPE_COMBINED_IMAGE_SAMPLER, 1,
        VkShaderStageFlagBits.VK_SHADER_STAGE_FRAGMENT_BIT, none⟩]
    let descriptorSetLayout : DescriptorSetLayout := ⟨descriptorBindings⟩
    let descriptorSetLayouts := [descriptorSetLayout]
    let pushConstantRanges : List PushConstantRange :=
      [⟨VkShaderStageFlagBits.VK_SHADER_STAGE_VERTEX_BIT, 0, 128⟩]
    let pipelineLayout : PipelineLayout := ⟨descriptorSetLayouts, pushConstantRanges⟩
    let vertexBindingsDescriptions : List VkVertexInputBindingDescription :=
      [⟨0, sizeof_vec3, VkVertexInputRate.VK_VERTEX_INPUT_RATE_VERTEX⟩,
       ⟨1, sizeof_vec3, VkVertexInputRate.VK_VERTEX_INPUT_RATE_VERTEX⟩,
       ⟨2, sizeof_vec2, VkVertexInputRate.VK_VERTEX_INPUT_RATE_VERTEX⟩]
    let vertexAttributeDescriptions : List VkVertexInputAttributeDescription :=
      [⟨0, 0, VkFormat.VK_FORMAT_R32G32B32_SFLOAT, 0⟩,
       ⟨1, 1, VkFormat.VK_FORMAT_R32G32B32_SFLOAT, 0⟩,
       ⟨2, 2, VkFormat.VK_FORMAT_R32G32_SFLOAT, 0⟩]
    let pipelineStates : List GraphicsPipelineState :=
      [GraphicsPipelineState.VertexInputState vertexBindingsDescriptions
         vertexAttributeDescriptions,
       GraphicsPipelineState.InputAssemblyState,
       GraphicsPipelineState.RasterizationState,
       GraphicsPipelineState.MultisampleState,
       GraphicsPipelineState.ColorBlendState,
       GraphicsPipelineState.DepthStencilState]
    let graphicsPipeline : GraphicsPipeline :=
      ⟨pipelineLayout, [vertexShader, fragmentShader], pipelineStates⟩
    let bindGraphicsPipeline := StateCommand.BindGraphicsPipeline graphicsPipeline
    -- create texture image and associated DescriptorSets and binding
    let texture : DescriptorImage :=
      ⟨Sampler.mk, textureData, 0, 0, VkDescriptorType.VK_DESCRIPTOR_TYPE_COMBINED_IMAGE_SAMPLER⟩
    let descriptorSet : DescriptorSet := ⟨descriptorSetLayout, [texture]⟩
    let bindDescriptorSets := StateCommand.BindDescriptorSets
      VkPipelineBindPoint.VK_PIPELINE_BIND_POINT_GRAPHICS graphicsPipeline.getPipelineLayout 0
      [descriptorSet]
    -- create StateGroup as the root of the scene/command graph
    let subgraph := StateGroup.create
    let subgraph := subgraph.add bindGraphicsPipeline
    let subgraph := subgraph.add bindDescriptorSets
    -- set up vertex and index arrays
    let vertices := createSphereTexturedNode_vertices
    let colors := List.replicate vertices.length (⟨color.r, color.g, color.b⟩ : vec3)
    let texcoords := createSphereTexturedNode_texcoords
    let indices := createSphereTexturedNode_indices
    -- setup geometry
    let drawCommands := Commands.create
    let drawCommands := drawCommands.addChild (Node.BindVertexBuffers 0
      [Data.vec3Array vertices, Data.vec3Array colors, Data.vec2Array texcoords])
    let drawCommands := drawCommands.addChild (Node.BindIndexBuffer (Data.ushortArray indices))
    let drawCommands := drawCommands.addChild (Node.DrawIndexed indices.length 1 0 0 0)
    -- add drawCommands to transform
    let transform := transform.addChild drawCommands.toNode
    let subgraph := subgraph.addChild transform.toNode
    (some subgraph.toNode, transform)
  | _, _ => (none, transform)

/-- Source: `ChVSGShapeFactory::createCylinderTexturedNode` (lines 458-755). The result is the returned node
(`none` for the empty `ref_ptr`) and the `transform` object after the call. The sizes passed as
`uint32_t` are far below 2^32. -/
def createCylinderTexturedNode (env : Env) (color : vec4) (texFilePath : String)
    (transform : MatrixTransform) :
    Option Node × MatrixTransform :=
  let vertexShader := readVertexShader env (env.GetChronoDataFile "vsg/shaders/vert_PushConstants.spv")
  let fragmentShader := readFragmentShader env (env.GetChronoDataFile "vsg/shaders/frag_PushConstants.spv")
  match vertexShader, fragmentShader with
  | some vertexShader, some fragmentShader =>
    let textureData := createRGBATexture env (env.GetChronoDataFile texFilePath)
    -- set up graphics pipeline
    let descriptorBindings : List DescriptorSetLayoutBinding :=
      [⟨0, VkDescriptorType.VK_DESCRIPTOR_TYPE_COMBINED_IMAGE_SAMPLER, 1,
        VkShaderStageFlagBits.VK_SHADER_STAGE_FRAGMENT_BIT, none⟩]
    let descriptorSetLayout : DescriptorSetLayout := ⟨descriptorBindings⟩
    let descriptorSetLayouts := [descriptorSetLayout]
    let pushConstantRanges : List PushConstantRange :=
      [⟨VkShaderStageFlagBits.VK_SHADER_STAGE_VERTEX_BIT, 0, 128⟩]
    let pipelineLayout : PipelineLayout := ⟨descriptorSetLayouts, pushConstantRanges⟩
    let vertexBindingsDescriptions : List VkVertexInputBindingDescription :=
      [⟨0, sizeof_vec3, VkVertexInputRate.VK_VERTEX_INPUT_RATE_VERTEX⟩,
       ⟨1, sizeof_vec3, VkVertexInputRate.VK_VERTEX_INPUT_RATE_VERTEX⟩,
       ⟨2, sizeof_vec2, VkVertexInputRate.VK_VERTEX_INPUT_RATE_VERTEX⟩]
    let vertexAttributeDescriptions : List VkVertexInputAttributeDescription :=
      [⟨0, 0, VkFormat.VK_FORMAT_R32G32B32_SFLOAT, 0⟩,
       ⟨1, 1, VkFormat.VK_FORMAT_R32G32B32_SFLOAT, 0⟩,
       ⟨2, 2, VkFormat.VK_FORMAT_R32G32_SFLOAT, 0⟩]
    let pipelineStates : List GraphicsPipelineState :=
      [GraphicsPipelineState.VertexInputState vertexBindingsDescriptions
         vertexAttributeDescriptions,
       GraphicsPipelineState.InputAssemblyState,
       GraphicsPipelineState.RasterizationState,
       GraphicsPipelineState.MultisampleState,
       GraphicsPipelineState.ColorBlendState,
       GraphicsPipelineState.DepthStencilState]
    let graphicsPipeline : GraphicsPipeline :=
      ⟨pipelineLayout, [vertexShader, fragmentShader], pipelineStates⟩
    let bindGraphicsPipeline := StateCommand.BindGraphicsPipeline graphicsPipeline
    -- create texture image and associated DescriptorSets and binding
    let texture : DescriptorImage :=
      ⟨Sampler.mk, textureData, 0, 0, VkDescriptorType.VK_DESCRIPTOR_TYPE_COMBINED_IMAGE_SAMPLER⟩
    let descriptorSet : DescriptorSet := ⟨descriptorSetLayout, [texture]⟩
    let bindDescriptorSets := StateCommand.BindDescriptorSets
      VkPipelineBindPoint.VK_PIPELINE_BIND_POINT_GRAPHICS graphicsPipeline.getPipelineLayout 0
      [descriptorSet]
    -- create StateGroup as the root of the scene/command graph
    let subgraph := StateGroup.create
    let subgraph := subgraph.add bindGraphicsPipeline
    let subgraph := subgraph.add bindDescriptorSets
    -- set up vertex and index arrays
    let vertices := createCylinderTexturedNode_vertices
    let colors := List.replicate vertices.length (⟨color.r, color.g, color.b⟩ : vec3)
    let texcoords := createCylinderTexturedNode_texcoords
    let indices := createCylinderTexturedNode_indices
    -- setup geometry
    let drawCommands := Commands.create
    let drawCommands := drawCommands.addChild (Node.BindVertexBuffers 0
      [Data.vec3Array vertices, Data.vec3Array colors, Data.vec2Array texcoords])
    let drawCommands := drawCommands.addChild (Node.BindIndexBuffer (Data.ushortArray indices))
    let drawCommands := drawCommands.addChild (Node.DrawIndexed indices.length 1 0 0 0)
    -- add drawCommands to transform
    let transform := transform.addChild drawCommands.toNode
    let subgraph := subgraph.addChild transform.toNode
    (some subgraph.toNode, transform)
  | _, _ => (none, transform)

/-- Source: `ChVSGShapeFactory::createBoxPhongNode` (lines 758-866). The result is the returned node
(`none` for the empty `ref_ptr`) and the `transform` object after the call. The sizes passed as
`uint32_t` are far below 2^32. -/
def createBoxPhongNode (env : Env) (color : vec4) (transform : MatrixTransform) :
    Option Node × MatrixTransform :=
  let vertexShader := readVertexShader env (env.GetChronoDataFile "vsg/shaders/vert_Phong.spv")
  let fragmentShader := readFragmentShader env (env.GetChronoDataFile "vsg/shaders/frag_Phong.spv")
  match vertexShader, fragmentShader with
  | some vertexShader, some fragmentShader =>
    let textureData := vec4Array2D.create 2 2 ⟨0, 0, 0, 0⟩
      VkFormat.VK_FORMAT_R32G32B32A32_SFLOAT
    -- set up graphics pipeline
    let descriptorBindings : List DescriptorSetLayoutBinding :=
      [⟨0, VkDescriptorType.VK_DESCRIPTOR_TYPE_COMBINED_IMAGE_SAMPLER, 1,
        VkShaderStageFlagBits.VK_SHADER_STAGE_FRAGMENT_BIT, none⟩]
    let descriptorSetLayout : DescriptorSetLayout := ⟨descriptorBindings⟩
    let descriptorSetLayouts := [descriptorSetLayout]
    let pushConstantRanges : List PushConstantRange :=
      [⟨VkShaderStageFlagBits.VK_SHADER_STAGE_VERTEX_BIT, 0, 128⟩]
    let pipelineLayout : PipelineLayout := ⟨descriptorSetLayouts, pushConstantRanges⟩
    let vertexBindingsDescriptions : List VkVertexInputBindingDescription :=
      [⟨0, sizeof_vec3, VkVertexInputRate.VK_VERTEX_INPUT_RATE_VERTEX⟩,
       ⟨1, sizeof_vec3, VkVertexInputRate.VK_VERTEX_INPUT_RATE_VERTEX⟩,
       ⟨2, sizeof_vec3, VkVertexInputRate.VK_VERTEX_INPUT_RATE_VERTEX⟩,
       ⟨3, sizeof_vec2, VkVertexInputRate.VK_VERTEX_INPUT_RATE_VERTEX⟩]
    let vertexAttributeDescriptions : List VkVertexInputAttributeDescription :=
      [⟨0, 0, VkFormat.VK_FORMAT_R32G32B32_SFLOAT, 0⟩,
       ⟨1, 1, VkFormat.VK_FORMAT_R32G32B32_SFLOAT, 0⟩,
       ⟨2, 2, VkFormat.VK_FORMAT_R32G32B32_SFLOAT, 0⟩,
       ⟨3, 3, VkFormat.VK_FORMAT_R32G32_SFLOAT, 0⟩]
    let pipelineStates : List GraphicsPipelineState :=
      [GraphicsPipelineState.VertexInputState vertexBindingsDescriptions
         vertexAttributeDescriptions,
       GraphicsPipelineState.InputAssemblyState,
       GraphicsPipelineState.RasterizationState,
       GraphicsPipelineState.MultisampleState,
       GraphicsPipelineState.ColorBlendState,
       GraphicsPipelineState.DepthStencilState]
    let graphicsPipeline : GraphicsPipeline :=
      ⟨pipelineLayout, [vertexShader, fragmentShader], pipelineStates⟩
    let bindGraphicsPipeline := StateCommand.BindGraphicsPipeline graphicsPipeline
    -- create texture image and associated DescriptorSets and binding
    let texture : DescriptorImage :=
      ⟨Sampler.mk, textureData, 0, 0, VkDescriptorType.VK_DESCRIPTOR_TYPE_COMBINED_IMAGE_SAMPLER⟩
    let descriptorSet : DescriptorSet := ⟨descriptorSetLayout, [texture]⟩
    let _bindDescriptorSets := StateCommand.BindDescriptorSets
      VkPipelineBindPoint.VK_PIPELINE_BIND_POINT_GRAPHICS graphicsPipeline.getPipelineLayout 0
      [descriptorSet]
    -- create StateGroup as the root of the scene/command graph
    let subgraph := StateGroup.create
    let subgraph := subgraph.add bindGraphicsPipeline
    -- subgraph->add(bindDescriptorSets);  (commented out in the source)
    -- set up vertex and index arrays
    let vertices := createBoxPhongNode_vertices
    let normals := createBoxPhongNode_normals
    let colors := List.replicate vertices.length (⟨color.r, color.g, color.b⟩ : vec3)
    let texcoords := createBoxPhongNode_texcoords
    let indices := createBoxPhongNode_indices
    -- setup geometry
    let drawCommands := Commands.create
    let drawCommands := drawCommands.addChild (Node.BindVertexBuffers 0
      [Data.vec3Array vertices, Data.vec3Array normals, Data.vec3Array colors,
       Data.vec2Array texcoords])
    let drawCommands := drawCommands.addChild (Node.BindIndexBuffer (Data.ushortArray indices))
    let drawCommands := drawCommands.addChild (Node.DrawIndexed indices.length 1 0 0 0)
    -- add drawCommands to transform
    let transform := transform.addChild drawCommands.toNode
    let subgraph := subgraph.addChild transform.toNode
    (some subgraph.toNode, transform)
  | _, _ => (none, transform)

end ChVSGShapeFactory

end vsg3d

end chrono

/-! ## Sample inputs and the properties stated about the factory -/

namespace chrono

namespace vsg3d

namespace ChVisualSystemVSG

/-- A state of the visual system over the rationals: the members with an in-class initialiser in
the header have that value, the others (set by the constructor, which is not in the header) have
sample values. -/
def sampleState : ChVisualSystemVSG ℚ :=
  { m_systems := []
    m_initialized := false
    m_screen_num := -1
    m_use_fullscreen := false
    m_window := none
    m_viewer := none
    m_renderGraph := none
    m_show_gui := true
    m_gui := []
    m_vsg_cameraEye := ⟨-10, 0, 0⟩
    m_vsg_cameraTarget := ⟨0, 0, 0⟩
    m_lookAt := none
    m_vsg_camera := none
    m_camera_trackball := true
    m_system_symbol_position := ⟨0, 0, 0⟩
    m_system_symbol_size := ⟨1, 1, 1⟩
    m_scene := none
    m_bodyScene := none
    m_linkScene := none
    m_particleScene := none
    m_decoScene := none
    m_symbolScene := none
    m_deformableScene := none
    m_cogScene := none
    m_shapeBuilder := none
    m_vsgBuilder := none
    m_options := none
    m_wireframe := false
    m_capture_image := false
    m_imageFilename := ""
    m_num_vsgVertexList := 0
    m_allowVertexTransfer := false
    m_allowNormalsTransfer := false
    m_allowColorsTransfer := false
    m_vsgVerticesList := []
    m_vsgNormalsList := []
    m_vsgColorsList := []
    m_mbsMesh := none
    m_objCache := []
    m_windowWidth := 800
    m_windowHeight := 600
    m_windowX := 0
    m_windowY := 0
    m_windowTitle := ""
    m_clearColor := ⟨0, 0, 0⟩
    m_numThreads := 16
    m_loadThreads := none
    m_particlePattern := none
    m_useSkybox := false
    m_skyboxPath := ""
    m_cameraUpVector := ⟨0, 0, 1⟩
    m_yup := false
    m_cameraAngleDeg := 30
    m_lightIntensity := 1
    m_elevation := 0
    m_acimut := 0
    m_guiFontSize := 20
    m_show_cog := false
    m_cog_scale := 1
    m_frame_number := 0
    m_start_time := 0 }

end ChVisualSystemVSG

namespace ChVSGShapeFactory

open vsg

/-- An environment in which no shader file can be read and no file exists. -/
def emptyEnv : Env :=
  { GetChronoDataFile := fun f => "data/" ++ f
    ShaderStage_read := fun _ _ _ => none
    path_exists := fun _ => false
    path_is_file := fun _ => false
    stbi_loadf := fun _ _ => ⟨none, -1, -1, 0⟩ }

/-- An environment in which every shader file can be read and no texture file exists. -/
def shaderEnv : Env :=
  { emptyEnv with ShaderStage_read := fun stage entry _ => some ⟨stage, entry, 1⟩ }

/-- A transform with the identity matrix and one child, an empty command list. -/
def sampleTransform : MatrixTransform :=
  { matrix := [1, 0, 0, 0, 0, 1, 0, 0, 0, 0, 1, 0, 0, 0, 0, 1]
    children := [Node.Commands []] }

/-- A command node holding, in this order, a vertex-buffer binding of `arrays`, an index-buffer
binding of `indices`, and an indexed draw of `indices.length` indices, one instance, all offsets
zero. -/
def drawNode (arrays : List Data) (indices : List Nat) : Node :=
  Node.Commands [Node.BindVertexBuffers 0 arrays, Node.BindIndexBuffer (Data.ushortArray indices),
    Node.DrawIndexed indices.length 1 0 0 0]

/-- The outcome `r` of a factory call on `transform` is a state group whose only child is the
transform, and the transform has its previous children followed by one new command node of the
shape `drawNode` over the index table `indices`. -/
def BuildsGraph (r : Option Node × MatrixTransform) (transform : MatrixTransform)
    (indices : List Nat) : Prop :=
  ∃ (stateCommands : List StateCommand) (arrays : List Data),
    r.2 = { matrix := transform.matrix
            children := transform.children ++ [drawNode arrays indices] }
    ∧ r.1 = some (Node.StateGroup stateCommands [r.2.toNode])

/-- The entry `i` of a vertex table (the origin past the end of the table). -/
def vertexAt (vertices : List vec3) (i : Nat) : vec3 :=
  vertices.getD i ⟨0, 0, 0⟩

/-- The coordinate of a point along axis 0 (x), 1 (y) or 2 (z). -/
def coord (v : vec3) (axis : Fin 3) : ℚ :=
  match axis with
  | 0 => v.x
  | 1 => v.y
  | 2 => v.z

/-- The vertex `j` (0 to 3) of the quadrilateral `k` of a vertex table. -/
def corner (vertices : List vec3) (k : Fin 6) (j : Fin 4) : vec3 :=
  vertexAt vertices (4 * k.val + j.val)

/-- A vertex table and an index table describe the cube `[-1, 1]^3` face by face: 24 vertices
with coordinates 1 or -1 and 36 indices; the vertices `4k .. 4k+3` lie in one face plane (one
coordinate is the same 1 or -1 for the four) and are four different corners; the faces of two
different `k` are different sets of corners; the six indices of face `k` are
`4k, 4k+1, 4k+2, 4k, 4k+2, 4k+3`. -/
def IsBoxMesh (vertices : List vec3) (indices : List Nat) : Prop :=
  vertices.length = 24
  ∧ (∀ i : Fin 24, ∀ axis : Fin 3,
      coord (vertexAt vertices i.val) axis = 1 ∨ coord (vertexAt vertices i.val) axis = -1)
  ∧ indices.length = 36
  ∧ (∀ k : Fin 6,
      (∃ axis : Fin 3, ∃ side : Bool, ∀ j : Fin 4,
        coord (corner vertices k j) axis = if side then 1 else -1)
      ∧ (∀ i j : Fin 4, i ≠ j → corner vertices k i ≠ corner vertices k j)
      ∧ (List.range 6).map (fun j => indices.getD (6 * k.val + j) 0)
          = [4 * k.val, 4 * k.val + 1, 4 * k.val + 2, 4 * k.val, 4 * k.val + 2, 4 * k.val + 3])
  ∧ (∀ k k2 : Fin 6, k ≠ k2 →
      ∃ j : Fin 4, ∀ j2 : Fin 4, corner vertices k j ≠ corner vertices k2 j2)

instance (vertices : List vec3) (indices : List Nat) : Decidable (IsBoxMesh vertices indices) := by
  unfold IsBoxMesh; infer_instance

/-- A point lies on the unit sphere up to `1e-4`: `|x^2 + y^2 + z^2 - 1| <= 1e-4`. -/
def OnUnitSphere (v : vec3) : Prop :=
  |v.x ^ 2 + v.y ^ 2 + v.z ^ 2 - 1| ≤ 1 / 10000

instance (v : vec3) : Decidable (OnUnitSphere v) := by
  unfold OnUnitSphere; infer_instance

/-- A vertex table describes the side of a unit cylinder of half-height 1 along z with 32
segments: 64 vertices; for every `i` below 32 the vertex `2i` has `z = -1`, the vertex `2i+1` has
`z = 1`, both have the same `x` and `y`, and `|x^2 + y^2 - 1| <= 1e-4`. -/
def IsCylinderMesh (vertices : List vec3) : Prop :=
  vertices.length = 64
  ∧ ∀ i : Fin 32,
      (vertexAt vertices (2 * i.val)).z = -1
      ∧ (vertexAt vertices (2 * i.val + 1)).z = 1
      ∧ (vertexAt vertices (2 * i.val)).x = (vertexAt vertices (2 * i.val + 1)).x
      ∧ (vertexAt vertices (2 * i.val)).y = (vertexAt vertices (2 * i.val + 1)).y
      ∧ |(vertexAt vertices (2 * i.val)).x ^ 2 + (vertexAt vertices (2 * i.val)).y ^ 2 - 1|
          ≤ 1 / 10000

instance (vertices : List vec3) : Decidable (IsCylinderMesh vertices) := by
  unfold IsCylinderMesh; infer_instance

/-- An index table fits a vertex table: the number of indices is a multiple of three, and every
index is a position of the vertex table, so that looking it up gives a vertex. -/
def IndicesFit (vertices : List vec3) (indices : List Nat) : Prop :=
  indices.length % 3 = 0
  ∧ (∀ i ∈ indices, i < vertices.length)
  ∧ (∀ i ∈ indices, (vertices[i]?).isSome = true)

instance (vertices : List vec3) (indices : List Nat) : Decidable (IndicesFit vertices indices) := by
  unfold IndicesFit; infer_instance

/-- The number of elements of a data array. -/
def arrayLength (d : Data) : Nat :=
  match d with
  | Data.vec2Array values => values.length
  | Data.vec3Array values => values.length
  | Data.ushortArray values => values.length

/-- The size in bytes of one element of a data array (`sizeof` of `vsg::vec2`, `vsg::vec3`,
`uint16_t`). -/
def elementSize (d : Data) : Nat :=
  match d with
  | Data.vec2Array _ => sizeof_vec2
  | Data.vec3Array _ => sizeof_vec3
  | Data.ushortArray _ => 2

/-- The format of one element of a data array of floats: two 32-bit floats for a `vec2`, three
for a `vec3`; none of the formats of the model for 16-bit indices. -/
def elementFormat (d : Data) : Option VkFormat :=
  match d with
  | Data.vec2Array _ => some VkFormat.VK_FORMAT_R32G32_SFLOAT
  | Data.vec3Array _ => some VkFormat.VK_FORMAT_R32G32B32_SFLOAT
  | Data.ushortArray _ => none

/-- The state commands of the state group that a factory call returned (none when the call
returned no state group). -/
def stateCommandsOf (r : Option Node × MatrixTransform) : List StateCommand :=
  match r.1 with
  | some (Node.StateGroup stateCommands _) => stateCommands
  | _ => []

/-- The command is a graphics-pipeline binding. -/
def isBindGraphicsPipeline (c : StateCommand) : Bool :=
  match c with
  | StateCommand.BindGraphicsPipeline _ => true
  | _ => false

/-- The command is a descriptor-set binding. -/
def isBindDescriptorSets (c : StateCommand) : Bool :=
  match c with
  | StateCommand.BindDescriptorSets _ _ _ _ => true
  | _ => false

/-- The returned state group holds a graphics-pipeline binding and a descriptor-set binding
among its state commands. -/
def HoldsBothBindings (r : Option Node × MatrixTransform) : Prop :=
  (stateCommandsOf r).any isBindGraphicsPipeline = true
  ∧ (stateCommandsOf r).any isBindDescriptorSets = true

instance (r : Option Node × MatrixTransform) : Decidable (HoldsBothBindings r) := by
  unfold HoldsBothBindings; infer_instance

/-- The vertex-input state of a pipeline: its binding descriptions and its attribute
descriptions (both empty when the pipeline has no vertex-input state). -/
def vertexInputOfPipeline (p : GraphicsPipeline) :
    List VkVertexInputBindingDescription × List VkVertexInputAttributeDescription :=
  (p.pipelineStates.findSome?
    (fun st => match st with
      | GraphicsPipelineState.VertexInputState bindings attributes => some (bindings, attributes)
      | _ => none)).getD ([], [])

/-- The vertex-input state of the graphics pipeline bound by the state group that a factory call
returned. -/
def vertexInputOf (r : Option Node × MatrixTransform) :
    List VkVertexInputBindingDescription × List VkVertexInputAttributeDescription :=
  ((stateCommandsOf r).findSome?
    (fun c => match c with
      | StateCommand.BindGraphicsPipeline p => some (vertexInputOfPipeline p)
      | _ => none)).getD ([], [])

/-- The data list of the vertex-buffer binding in the command node that a factory call added as
the last child of the transform (empty when there is none). -/
def boundArrays (r : Option Node × MatrixTransform) : List Data :=
  match r.2.children.getLast? with
  | some (Node.Commands children) =>
    (children.findSome?
      (fun c => match c with
        | Node.BindVertexBuffers _ arrays => some arrays
        | _ => none)).getD []
  | _ => []

/-- The declared vertex input matches the bound data list: as many binding descriptions and
attribute descriptions as arrays; binding `i` has number `i`, per-vertex rate and the element size
of array `i` as stride; attribute `i` has location `i`, reads binding `i` at offset 0 and has the
element format of array `i`. -/
def DescribesArrays (bindings : List VkVertexInputBindingDescription)
    (attributes : List VkVertexInputAttributeDescription) (arrays : List Data) : Prop :=
  bindings.length = arrays.length
  ∧ attributes.length = arrays.length
  ∧ ∀ i : Fin arrays.length,
      bindings[i.val]? = some ⟨i.val, elementSize (arrays.get i),
        VkVertexInputRate.VK_VERTEX_INPUT_RATE_VERTEX⟩
      ∧ ∃ format, elementFormat (arrays.get i) = some format
          ∧ attributes[i.val]? = some ⟨i.val, i.val, format, 0⟩

/-- The colour array as the description of the box meshes words it: the red, green and blue of
the colour once per vertex, the alpha left out. -/
def colourPerVertex (color : vec4) (vertexCount : Nat) : Data :=
  Data.vec3Array (List.replicate vertexCount ⟨color.r, color.g, color.b⟩)

end ChVSGShapeFactory

end vsg3d

end chrono

/-! ## Proofs: `ChVisualSystem.cpp` -/

namespace chrono

namespace ChVisualSystem

theorem clearLoop_visual_system (l : List Nat) (w : World) (s : Nat) :
    (l.foldl (fun acc s => { acc with visual_system := Function.update acc.visual_system s none })
      w).visual_system s = if s ∈ l then none else w.visual_system s := by
  induction l generalizing w with
  | nil => simp
  | cons a t ih =>
    simp only [List.foldl_cons, List.mem_cons]
    rw [ih]
    by_cases ht : s ∈ t
    · simp [ht]
    · by_cases ha : s = a
      · subst ha; simp [ht]
      · simp [ht, ha, Function.update_noteq ha]

theorem destructor_visual_system (this : Nat) (w : World) (s : Nat) :
    (destructor this w).visual_system s
      = if s ∈ w.m_systems this then none else w.visual_system s :=
  clearLoop_visual_system (w.m_systems this) w s

theorem AttachSystem_m_systems_mono (v s this sys : Nat) (w : World)
    (h : s ∈ w.m_systems v) : s ∈ (AttachSystem this sys w).m_systems v := by
  by_cases hv : v = this
  · subst hv; simp [AttachSystem, h]
  · simp [AttachSystem, Function.update_noteq hv, h]

theorem attachAll_m_systems_mono (calls : List (Nat × Nat)) (v s : Nat) (w : World)
    (h : s ∈ w.m_systems v) : s ∈ (attachAll calls w).m_systems v := by
  induction calls generalizing w with
  | nil => exact h
  | cons c t ih =>
    exact ih (AttachSystem c.1 c.2 w) (AttachSystem_m_systems_mono v s c.1 c.2 w h)

theorem attachAll_mem (calls : List (Nat × Nat)) (v s : Nat) (w : World)
    (h : (v, s) ∈ calls) : s ∈ (attachAll calls w).m_systems v := by
  induction calls generalizing w with
  | nil => simp at h
  | cons c t ih =>
    rcases List.mem_cons.mp h with hc | ht
    · subst hc
      apply attachAll_m_systems_mono t v s
      simp [AttachSystem]
    · exact ih (AttachSystem c.1 c.2 w) ht

/-- C1: whatever the heap, after any sequence of `AttachSystem` calls (on this and on other visual
systems) followed by the destructor of the visual system `V`, every system that was in the list
of `V` before or was attached to `V` by one of the calls has a null `visual_system`
back-reference. -/
theorem destructor_detaches_attached (w : World) (V : Nat) (calls : List (Nat × Nat)) (S : Nat)
    (h : S ∈ w.m_systems V ∨ (V, S) ∈ calls) :
    (destructor V (attachAll calls w)).visual_system S = none := by
  rw [destructor_visual_system]
  have hm : S ∈ (attachAll calls w).m_systems V := by
    rcases h with h | h
    · exact attachAll_m_systems_mono calls V S w h
    · exact attachAll_mem calls V S w h
  simp [hm]

/-- Witness of C1: a fresh visual system 7, to which systems 1, 2 and again 1 are attached. -/
theorem destructor_detaches_attached_witness :
    (destructor 7 (attachAll [(7, 1), (7, 2), (7, 1)]
      ⟨fun _ => none, fun _ => []⟩)).visual_system 2 = none :=
  destructor_detaches_attached ⟨fun _ => none, fun _ => []⟩ 7 [(7, 1), (7, 2), (7, 1)] 2
    (Or.inr (by decide))

/-- C2: after `V.AttachSystem(S)` the back-reference of `S` is `V`, the list of `V` is its
previous list with `S` appended at the end, and the back-reference of every other system is
unchanged. -/
theorem AttachSystem_effect (w : World) (V S : Nat) :
    (AttachSystem V S w).visual_system S = some V
    ∧ (AttachSystem V S w).m_systems V = w.m_systems V ++ [S]
    ∧ ∀ s, s ≠ S → (AttachSystem V S w).visual_system s = w.visual_system s := by
  refine ⟨?_, ?_, ?_⟩
  · simp [AttachSystem]
  · simp [AttachSystem]
  · intro s hs
    simp [AttachSystem, Function.update_noteq hs]

/-- Witness of C2: system 4 keeps its back-reference 9 when system 3 is attached to 7. -/
theorem AttachSystem_effect_witness :
    (AttachSystem 7 3 ⟨fun a => if a = 4 then some 9 else none, fun _ => []⟩).visual_system 3
      = some 7
    ∧ (AttachSystem 7 3 ⟨fun a => if a = 4 then some 9 else none, fun _ => []⟩).visual_system 4
      = some 9 :=
  ⟨(AttachSystem_effect ⟨fun a => if a = 4 then some 9 else none, fun _ => []⟩ 7 3).1,
   (AttachSystem_effect ⟨fun a => if a = 4 then some 9 else none, fun _ => []⟩ 7 3).2.2 4
    (by decide)⟩

end ChVisualSystem

end chrono


/-! ## Proofs: `ChVSGShapeFactory.cpp`, composition of the scene graph -/

namespace chrono

namespace vsg3d

namespace ChVSGShapeFactory

open vsg

/-- C3: for each of the four factory functions, if the vertex shader or the fragment shader
cannot be read, the function returns the empty node and leaves the transform as it was (so the
transform has exactly the children it had before the call). -/
theorem shader_failure_returns_null (env : Env) (color : vec4) (texFilePath : String)
    (transform : MatrixTransform) :
    ((readVertexShader env (env.GetChronoDataFile "vsg/shaders/vert_PushConstants.spv") = none
        ∨ readFragmentShader env (env.GetChronoDataFile "vsg/shaders/frag_PushConstants.spv")
            = none) →
      createBoxTexturedNode env color texFilePath transform = (none, transform)
      ∧ createSphereTexturedNode env color texFilePath transform = (none, transform)
      ∧ createCylinderTexturedNode env color texFilePath transform = (none, transform))
    ∧ ((readVertexShader env (env.GetChronoDataFile "vsg/shaders/vert_Phong.spv") = none
        ∨ readFragmentShader env (env.GetChronoDataFile "vsg/shaders/frag_Phong.spv") = none) →
      createBoxPhongNode env color transform = (none, transform)) := by
  constructor
  · intro h
    refine ⟨?_, ?_, ?_⟩
    · unfold createBoxTexturedNode
      rcases h with h | h
      · rw [h]
      · rw [h]
        cases readVertexShader env (env.GetChronoDataFile "vsg/shaders/vert_PushConstants.spv")
          <;> rfl
    · unfold createSphereTexturedNode
      rcases h with h | h
      · rw [h]
      · rw [h]
        cases readVertexShader env (env.GetChronoDataFile "vsg/shaders/vert_PushConstants.spv")
          <;> rfl
    · unfold createCylinderTexturedNode
      rcases h with h | h
      · rw [h]
      · rw [h]
        cases readVertexShader env (env.GetChronoDataFile "vsg/shaders/vert_PushConstants.spv")
          <;> rfl
  · intro h
    unfold createBoxPhongNode
    rcases h with h | h
    · rw [h]
    · rw [h]
      cases readVertexShader env (env.GetChronoDataFile "vsg/shaders/vert_Phong.spv") <;> rfl

/-- Witness of C3: with no readable shader the textured box factory returns the empty node and
the sample transform keeps its one child. -/
theorem shader_failure_returns_null_witness :
    createBoxTexturedNode emptyEnv ⟨1, 0, 0, 1⟩ "textures/cubetexture.png" sampleTransform
        = (none, sampleTransform)
    ∧ createBoxPhongNode emptyEnv ⟨1, 0, 0, 1⟩ sampleTransform = (none, sampleTransform) :=
  ⟨((shader_failure_returns_null emptyEnv ⟨1, 0, 0, 1⟩ "textures/cubetexture.png"
      sampleTransform).1 (Or.inl rfl)).1,
   (shader_failure_returns_null emptyEnv ⟨1, 0, 0, 1⟩ "textures/cubetexture.png"
      sampleTransform).2 (Or.inl rfl)⟩

/-- C4: for each of the four factory functions, when both shaders load, the returned node is a
state group whose only child is the transform passed in, and the children of that transform are
its previous children followed by exactly one new command node, whose children are, in this
order, a vertex-buffer binding, an index-buffer binding, and an indexed draw whose index count
is the length of the index table of the function, with instance count 1 and all offsets 0. -/
theorem shaders_loaded_builds_graph (env : Env) (color : vec4) (texFilePath : String)
    (transform : MatrixTransform) :
    ((∃ vs, readVertexShader env (env.GetChronoDataFile "vsg/shaders/vert_PushConstants.spv")
          = some vs)
        ∧ (∃ fs, readFragmentShader env
          (env.GetChronoDataFile "vsg/shaders/frag_PushConstants.spv") = some fs) →
      BuildsGraph (createBoxTexturedNode env color texFilePath transform) transform
        createBoxTexturedNode_indices
      ∧ BuildsGraph (createSphereTexturedNode env color texFilePath transform) transform
        createSphereTexturedNode_indices
      ∧ BuildsGraph (createCylinderTexturedNode env color texFilePath transform) transform
        createCylinderTexturedNode_indices)
    ∧ ((∃ vs, readVertexShader env (env.GetChronoDataFile "vsg/shaders/vert_Phong.spv")
          = some vs)
        ∧ (∃ fs, readFragmentShader env (env.GetChronoDataFile "vsg/shaders/frag_Phong.spv")
          = some fs) →
      BuildsGraph (createBoxPhongNode env color transform) transform
        createBoxPhongNode_indices) := by
  constructor
  · rintro ⟨⟨vs, hv⟩, ⟨fs, hf⟩⟩
    refine ⟨?_, ?_, ?_⟩
    · unfold createBoxTexturedNode
      rw [hv, hf]
      exact ⟨_, _, rfl, rfl⟩
    · unfold createSphereTexturedNode
      rw [hv, hf]
      exact ⟨_, _, rfl, rfl⟩
    · unfold createCylinderTexturedNode
      rw [hv, hf]
      exact ⟨_, _, rfl, rfl⟩
  · rintro ⟨⟨vs, hv⟩, ⟨fs, hf⟩⟩
    unfold createBoxPhongNode
    rw [hv, hf]
    exact ⟨_, _, rfl, rfl⟩

/-- Witness of C4: with readable shaders the Phong box factory on the sample transform. -/
theorem shaders_loaded_builds_graph_witness :
    BuildsGraph (createBoxPhongNode shaderEnv ⟨1, 0, 0, 1⟩ sampleTransform) sampleTransform
      createBoxPhongNode_indices :=
  (shaders_loaded_builds_graph shaderEnv ⟨1, 0, 0, 1⟩ "textures/cubetexture.png"
    sampleTransform).2 ⟨⟨_, rfl⟩, ⟨_, rfl⟩⟩

end ChVSGShapeFactory

end vsg3d

end chrono

/-! ## Proofs: `ChVSGShapeFactory.cpp`, mesh tables and fallback texture -/

namespace chrono

namespace vsg3d

namespace ChVSGShapeFactory

open vsg

/-- C5: the box mesh table (that of `createBoxTexturedNode` and that of `createBoxPhongNode`) is
a box: 24 vertices with all coordinates 1 or -1 and 36 indices; for every `k` from 0 to 5 the
vertices `4k .. 4k+3` are four distinct corners of one face of the cube, the six faces are
pairwise different, and the indices of face `k` are the triangles `(4k, 4k+1, 4k+2)` and
`(4k, 4k+2, 4k+3)`. -/
theorem box_tables_are_boxes :
    IsBoxMesh createBoxTexturedNode_vertices createBoxTexturedNode_indices
    ∧ IsBoxMesh createBoxPhongNode_vertices createBoxPhongNode_indices := by
  constructor <;> decide!

/-- C6: every vertex `(x, y, z)` of the vertex table of `createSphereTexturedNode`, its decimal
literals read as exact rationals, satisfies `|x^2 + y^2 + z^2 - 1| <= 1e-4`. -/
theorem sphere_vertices_on_unit_sphere :
    ∀ v ∈ createSphereTexturedNode_vertices, OnUnitSphere v := by
  decide!

/-- Witness of C6: the first vertex of the table. -/
theorem sphere_vertices_on_unit_sphere_witness :
    |(-0.818828 : ℚ) ^ 2 + (-0.445779) ^ 2 + (-0.361665) ^ 2 - 1| ≤ 1 / 10000 :=
  sphere_vertices_on_unit_sphere ⟨-0.818828, -0.445779, -0.361665⟩
    (by simp [createSphereTexturedNode_vertices, createSphereTexturedNode_vertices_part0])

/-- C7: the vertex table of `createCylinderTexturedNode` is a unit cylinder of half-height 1
along z with 32 segments: 64 vertices, and for every `i` from 0 to 31 the vertex `2i` has
`z = -1`, the vertex `2i+1` has `z = 1`, both have the same `(x, y)`, and (decimal literals read
as exact rationals) `|x^2 + y^2 - 1| <= 1e-4`. -/
theorem cylinder_table_is_cylinder : IsCylinderMesh createCylinderTexturedNode_vertices := by
  decide!

/-- C8: for every path that does not exist or is not a regular file, `createRGBATexture`
returns a 2 x 2 RGBA image whose texels (0,0) and (1,1) are (0,0,1,0) and whose texels (1,0)
and (0,1) are (1,1,0,0). -/
theorem createRGBATexture_fallback (env : Env) (filePath : String)
    (h : env.path_exists filePath = false ∨ env.path_is_file filePath = false) :
    (createRGBATexture env filePath).width = 2
    ∧ (createRGBATexture env filePath).height = 2
    ∧ (createRGBATexture env filePath).format = VkFormat.VK_FORMAT_R32G32B32A32_SFLOAT
    ∧ (createRGBATexture env filePath).value_at 0 0 = some ⟨0, 0, 1, 0⟩
    ∧ (createRGBATexture env filePath).value_at 1 1 = some ⟨0, 0, 1, 0⟩
    ∧ (createRGBATexture env filePath).value_at 1 0 = some ⟨1, 1, 0, 0⟩
    ∧ (createRGBATexture env filePath).value_at 0 1 = some ⟨1, 1, 0, 0⟩ := by
  have hc : (env.path_exists filePath && env.path_is_file filePath) = false := by
    rcases h with h | h <;> simp [h]
  have he : createRGBATexture env filePath
      = ((vec4Array2D.create 2 2 ⟨1, 1, 0, 0⟩ VkFormat.VK_FORMAT_R32G32B32A32_SFLOAT).set 0 0
          ⟨0, 0, 1, 0⟩).set 1 1 ⟨0, 0, 1, 0⟩ := by
    unfold createRGBATexture
    rw [hc]
    rfl
  rw [he]
  decide!

/-- Witness of C8: a path in an environment without files. -/
theorem createRGBATexture_fallback_witness :
    (createRGBATexture emptyEnv "data/textures/missing.png").value_at 1 0 = some ⟨1, 1, 0, 0⟩ :=
  (createRGBATexture_fallback emptyEnv "data/textures/missing.png" (Or.inl rfl)).2.2.2.2.2.1

end ChVSGShapeFactory

/-! ## Proofs: `ChVisualSystemVSG.h` -/

namespace ChVisualSystemVSG

/-- C9: after one call of `ToggleGuiVisibility`, `IsGuiVisible` returns the negation of what it
returned before; two consecutive calls restore the original state; and no other field changes
(putting the old flag back into the toggled state gives the original state). -/
theorem ToggleGuiVisibility_toggles {D : Type} (s : ChVisualSystemVSG D) :
    IsGuiVisible (ToggleGuiVisibility s) = !IsGuiVisible s
    ∧ ToggleGuiVisibility (ToggleGuiVisibility s) = s
    ∧ { ToggleGuiVisibility s with m_show_gui := s.m_show_gui } = s := by
  refine ⟨rfl, ?_, rfl⟩
  cases s
  simp [ToggleGuiVisibility]

/-- C10: after `SetLightIntensity(x)` the stored light intensity lies in `[0, 1]`; it is `x`
when `0 <= x <= 1`, 0 when `x < 0` and 1 when `x > 1`; setting the stored value again changes
nothing, and the default value 1.0 is a fixed point. The floating-point type is any linearly
ordered type in which `0 <= 1` (the values other than NaN). -/
theorem SetLightIntensity_clamps {D : Type} [LinearOrder D] [Zero D] [One D]
    (h01 : (0 : D) ≤ 1) (s : ChVisualSystemVSG D) (x : D) :
    (0 ≤ (SetLightIntensity s x).m_lightIntensity
      ∧ (SetLightIntensity s x).m_lightIntensity ≤ 1)
    ∧ (0 ≤ x → x ≤ 1 → (SetLightIntensity s x).m_lightIntensity = x)
    ∧ (x < 0 → (SetLightIntensity s x).m_lightIntensity = 0)
    ∧ (1 < x → (SetLightIntensity s x).m_lightIntensity = 1)
    ∧ SetLightIntensity (SetLightIntensity s x) (SetLightIntensity s x).m_lightIntensity
        = SetLightIntensity s x
    ∧ (SetLightIntensity s m_lightIntensity_default).m_lightIntensity
        = m_lightIntensity_default := by
  have key : ∀ y : D, (0 ≤ ChClamp y 0 1 ∧ ChClamp y 0 1 ≤ 1)
      ∧ (0 ≤ y → y ≤ 1 → ChClamp y 0 1 = y) ∧ (y < 0 → ChClamp y 0 1 = 0)
      ∧ (1 < y → ChClamp y 0 1 = 1) := by
    intro y
    unfold ChClamp
    by_cases h1 : y < 0
    · rw [if_pos h1]
      refine ⟨⟨le_rfl, h01⟩, fun h0 _ => absurd h1 (not_lt.mpr h0), fun _ => rfl, fun h2 => ?_⟩
      exact absurd (lt_trans h2 h1) (not_lt.mpr h01)
    · rw [if_neg h1]
      by_cases h2 : y > 1
      · rw [if_pos h2]
        exact ⟨⟨h01, le_rfl⟩, fun _ h3 => absurd h2 (not_lt.mpr h3), fun h0 => absurd h0 h1,
          fun _ => rfl⟩
      · rw [if_neg h2]
        exact ⟨⟨not_lt.mp h1, not_lt.mp h2⟩, fun _ _ => rfl, fun h0 => absurd h0 h1,
          fun h3 => absurd h3 h2⟩
  obtain ⟨hr, hin, hlo, hhi⟩ := key x
  refine ⟨hr, hin, hlo, hhi, ?_, ?_⟩
  · have hfix : ChClamp (ChClamp x 0 1) 0 1 = ChClamp x 0 1 := (key _).2.1 hr.1 hr.2
    simp [SetLightIntensity, hfix]
  · exact (key 1).2.1 h01 le_rfl

/-- Witness of C10: over the rationals, an intensity of 3/2 is stored as 1 and an intensity of
-2 as 0. -/
theorem SetLightIntensity_clamps_witness :
    (SetLightIntensity sampleState (3 / 2)).m_lightIntensity = 1
    ∧ (SetLightIntensity sampleState (-2)).m_lightIntensity = 0 :=
  ⟨(SetLightIntensity_clamps (by norm_num) sampleState (3 / 2 : ℚ)).2.2.2.1 (by norm_num),
   (SetLightIntensity_clamps (by norm_num) sampleState (-2 : ℚ)).2.2.1 (by norm_num)⟩

end ChVisualSystemVSG

end vsg3d

end chrono

/-! ## Proofs: `ChVisualSystem.cpp`, several visual systems -/

namespace chrono

namespace ChVisualSystem

theorem AttachSystem_m_systems_mem (v s this sys : Nat) (w : World)
    (h : s ∈ (AttachSystem this sys w).m_systems v) :
    s ∈ w.m_systems v ∨ (v, s) = (this, sys) := by
  by_cases hv : v = this
  · subst hv
    simp only [AttachSystem, Function.update_same, List.mem_append, List.mem_singleton] at h
    rcases h with h | h
    · exact Or.inl h
    · exact Or.inr (by rw [h])
  · simp only [AttachSystem, Function.update_noteq hv] at h
    exact Or.inl h

theorem attachAll_m_systems_mem (calls : List (Nat × Nat)) (v s : Nat) (w : World)
    (h : s ∈ (attachAll calls w).m_systems v) : s ∈ w.m_systems v ∨ (v, s) ∈ calls := by
  induction calls generalizing w with
  | nil => exact Or.inl h
  | cons c t ih =>
    rcases ih (AttachSystem c.1 c.2 w) h with h1 | h1
    · rcases AttachSystem_m_systems_mem v s c.1 c.2 w h1 with h2 | h2
      · exact Or.inl h2
      · exact Or.inr (List.mem_cons.mpr (Or.inl h2))
    · exact Or.inr (List.mem_cons_of_mem c h1)

/-- C11, as stated, fails: system 1 is attached to the visual system 7 and then to the visual
system 8, so its back-reference is 8; the destructor of 7 sets that back-reference to null. -/
theorem destructor_clears_reattached_system :
    (attachAll [(7, 1), (8, 1)] ⟨fun _ => none, fun _ => []⟩).visual_system 1 = some 8
    ∧ (8 : Nat) ≠ 7
    ∧ (destructor 7 (attachAll [(7, 1), (8, 1)] ⟨fun _ => none, fun _ => []⟩)).visual_system 1
        ≠ some 8 := by
  decide

/-- C11, amended: after any sequence of `AttachSystem` calls on several visual systems, the
destructor of the visual system `A` leaves the back-reference of every system that is not in the
list of `A` (it was not there before and no call attached it to `A`) as it was, whichever visual
system `B` it names; a system in the list of `A` ends with a null back-reference, also when a
later call attached it to another visual system. -/
theorem destructor_keeps_unattached (w : World) (A : Nat) (calls : List (Nat × Nat)) (S : Nat) :
    (S ∉ w.m_systems A → (A, S) ∉ calls →
      (destructor A (attachAll calls w)).visual_system S
        = (attachAll calls w).visual_system S)
    ∧ (S ∈ w.m_systems A ∨ (A, S) ∈ calls →
      (destructor A (attachAll calls w)).visual_system S = none) := by
  constructor
  · intro h1 h2
    rw [destructor_visual_system]
    have hm : S ∉ (attachAll calls w).m_systems A := by
      intro hin
      rcases attachAll_m_systems_mem calls A S w hin with h | h
      · exact h1 h
      · exact h2 h
    simp [hm]
  · intro h
    rw [destructor_visual_system]
    have hm : S ∈ (attachAll calls w).m_systems A := by
      rcases h with h | h
      · exact attachAll_m_systems_mono calls A S w h
      · exact attachAll_mem calls A S w h
    simp [hm]

/-- Witness of C11, amended: system 2 was attached to the visual system 8 only and keeps the
back-reference 8 when the visual system 7 is destroyed. -/
theorem destructor_keeps_unattached_witness :
    (destructor 7 (attachAll [(7, 1), (8, 1), (8, 2)]
      ⟨fun _ => none, fun _ => []⟩)).visual_system 2 = some 8 :=
  ((destructor_keeps_unattached ⟨fun _ => none, fun _ => []⟩ 7 [(7, 1), (8, 1), (8, 2)] 2).1
    (by decide) (by decide)).trans (by decide)

end ChVisualSystem

end chrono

/-! ## Proofs: `ChVSGShapeFactory.cpp`, buffers and pipeline state -/

namespace chrono

namespace vsg3d

namespace ChVSGShapeFactory

open vsg

theorem boundArrays_addChild (node : Option Node) (transform : MatrixTransform)
    (arrays : List Data) (rest : List Node) :
    boundArrays (node, transform.addChild
      (Node.Commands (Node.BindVertexBuffers 0 arrays :: rest))) = arrays := by
  simp [boundArrays, MatrixTransform.addChild]

/-- C12: in each of the four mesh tables (textured box, textured sphere, textured cylinder,
Phong box) the number of indices is a multiple of three and every index is strictly less than
the number of vertices of the same table, so that looking up any index in the vertex table gives
a vertex. -/
theorem index_tables_fit_vertex_tables :
    IndicesFit createBoxTexturedNode_vertices createBoxTexturedNode_indices
    ∧ IndicesFit createSphereTexturedNode_vertices createSphereTexturedNode_indices
    ∧ IndicesFit createCylinderTexturedNode_vertices createCylinderTexturedNode_indices
    ∧ IndicesFit createBoxPhongNode_vertices createBoxPhongNode_indices := by
  refine ⟨?_, ?_, ?_, ?_⟩ <;> decide!

end ChVSGShapeFactory

end vsg3d

end chrono

namespace chrono

namespace vsg3d

namespace ChVSGShapeFactory

open vsg

/-- C13, on the code: with both shaders read, the arrays bound as per-vertex input have these
lengths. Both boxes have one element per vertex in every array (24); the sphere binds 205
texture coordinates beside 162 vertices and 162 colours, the cylinder 130 texture coordinates
beside 64 vertices and 64 colours. -/
theorem bound_array_lengths :
    (boundArrays (createBoxTexturedNode shaderEnv ⟨1, 0, 0, 1⟩ "textures/cubetexture.png"
        sampleTransform)).map arrayLength = [24, 24, 24]
    ∧ (boundArrays (createBoxPhongNode shaderEnv ⟨1, 0, 0, 1⟩ sampleTransform)).map arrayLength
        = [24, 24, 24, 24]
    ∧ (boundArrays (createSphereTexturedNode shaderEnv ⟨1, 0, 0, 1⟩ "textures/cubetexture.png"
        sampleTransform)).map arrayLength = [162, 162, 205]
    ∧ (boundArrays (createCylinderTexturedNode shaderEnv ⟨1, 0, 0, 1⟩ "textures/cubetexture.png"
        sampleTransform)).map arrayLength = [64, 64, 130] := by
  refine ⟨?_, ?_, ?_, ?_⟩ <;> decide!

/-- C14, as stated, fails for the Phong box: with both shaders read, the state group returned
by `createBoxPhongNode` holds the graphics-pipeline binding only. -/
theorem phong_state_group_lacks_descriptor_sets :
    readVertexShader shaderEnv (shaderEnv.GetChronoDataFile "vsg/shaders/vert_Phong.spv") ≠ none
    ∧ readFragmentShader shaderEnv (shaderEnv.GetChronoDataFile "vsg/shaders/frag_Phong.spv")
        ≠ none
    ∧ ¬ HoldsBothBindings (createBoxPhongNode shaderEnv ⟨1, 0, 0, 1⟩ sampleTransform) := by
  decide!

/-- C14, amended: when both shaders load, the state group returned by each of the three textured
factory functions holds exactly two state commands, the graphics-pipeline binding and then the
descriptor-set binding; the state group returned by `createBoxPhongNode` holds exactly one, the
graphics-pipeline binding, and no descriptor-set binding. -/
theorem state_group_bindings (env : Env) (color : vec4) (texFilePath : String)
    (transform : MatrixTransform) :
    ((∃ vs, readVertexShader env (env.GetChronoDataFile "vsg/shaders/vert_PushConstants.spv")
          = some vs)
        ∧ (∃ fs, readFragmentShader env
          (env.GetChronoDataFile "vsg/shaders/frag_PushConstants.spv") = some fs) →
      (HoldsBothBindings (createBoxTexturedNode env color texFilePath transform)
        ∧ (stateCommandsOf (createBoxTexturedNode env color texFilePath transform)).map
            (fun c => (isBindGraphicsPipeline c, isBindDescriptorSets c))
          = [(true, false), (false, true)])
      ∧ (HoldsBothBindings (createSphereTexturedNode env color texFilePath transform)
        ∧ (stateCommandsOf (createSphereTexturedNode env color texFilePath transform)).map
            (fun c => (isBindGraphicsPipeline c, isBindDescriptorSets c))
          = [(true, false), (false, true)])
      ∧ (HoldsBothBindings (createCylinderTexturedNode env color texFilePath transform)
        ∧ (stateCommandsOf (createCylinderTexturedNode env color texFilePath transform)).map
            (fun c => (isBindGraphicsPipeline c, isBindDescriptorSets c))
          = [(true, false), (false, true)]))
    ∧ ((∃ vs, readVertexShader env (env.GetChronoDataFile "vsg/shaders/vert_Phong.spv")
          = some vs)
        ∧ (∃ fs, readFragmentShader env (env.GetChronoDataFile "vsg/shaders/frag_Phong.spv")
          = some fs) →
      (stateCommandsOf (createBoxPhongNode env color transform)).map
          (fun c => (isBindGraphicsPipeline c, isBindDescriptorSets c)) = [(true, false)]
      ∧ (stateCommandsOf (createBoxPhongNode env color transform)).any isBindDescriptorSets
          = false) := by
  constructor
  · rintro ⟨⟨vs, hv⟩, ⟨fs, hf⟩⟩
    refine ⟨?_, ?_, ?_⟩
    · unfold HoldsBothBindings createBoxTexturedNode
      rw [hv, hf]
      exact ⟨⟨rfl, rfl⟩, rfl⟩
    · unfold HoldsBothBindings createSphereTexturedNode
      rw [hv, hf]
      exact ⟨⟨rfl, rfl⟩, rfl⟩
    · unfold HoldsBothBindings createCylinderTexturedNode
      rw [hv, hf]
      exact ⟨⟨rfl, rfl⟩, rfl⟩
  · rintro ⟨⟨vs, hv⟩, ⟨fs, hf⟩⟩
    unfold createBoxPhongNode
    rw [hv, hf]
    exact ⟨rfl, rfl⟩

/-- Witness of C14, amended: with readable shaders, the textured sphere holds both bindings and
the Phong box holds no descriptor-set binding. -/
theorem state_group_bindings_witness :
    HoldsBothBindings (createSphereTexturedNode shaderEnv ⟨1, 0, 0, 1⟩
      "textures/cubetexture.png" sampleTransform)
    ∧ (stateCommandsOf (createBoxPhongNode shaderEnv ⟨1, 0, 0, 1⟩ sampleTransform)).any
        isBindDescriptorSets = false :=
  ⟨(((state_group_bindings shaderEnv ⟨1, 0, 0, 1⟩ "textures/cubetexture.png"
      sampleTransform).1 ⟨⟨_, rfl⟩, ⟨_, rfl⟩⟩).2.1).1,
   ((state_group_bindings shaderEnv ⟨1, 0, 0, 1⟩ "textures/cubetexture.png"
      sampleTransform).2 ⟨⟨_, rfl⟩, ⟨_, rfl⟩⟩).2⟩

end ChVSGShapeFactory

end vsg3d

end chrono

namespace chrono

namespace vsg3d

namespace ChVSGShapeFactory

open vsg

/-- C15: in every factory function, when both shaders load, the declared vertex-input bindings
match the data arrays bound: as many binding descriptions and attribute descriptions as arrays
in the data list, binding `i` and attribute location `i` refer to array `i`, stride and format
are those of the element type of that array (12 bytes and three 32-bit floats for a `vec3`
array, 8 bytes and two 32-bit floats for a `vec2` array); the arrays are vertex, colour,
tex-coord for the textured shapes and vertex, normal, colour, tex-coord for the Phong box. -/
theorem vertex_input_matches_bound_arrays (env : Env) (color : vec4) (texFilePath : String)
    (transform : MatrixTransform) :
    ((∃ vs, readVertexShader env (env.GetChronoDataFile "vsg/shaders/vert_PushConstants.spv")
          = some vs)
        ∧ (∃ fs, readFragmentShader env
          (env.GetChronoDataFile "vsg/shaders/frag_PushConstants.spv") = some fs) →
      (boundArrays (createBoxTexturedNode env color texFilePath transform)
          = [Data.vec3Array createBoxTexturedNode_vertices,
             Data.vec3Array (List.replicate createBoxTexturedNode_vertices.length
               ⟨color.r, color.g, color.b⟩),
             Data.vec2Array createBoxTexturedNode_texcoords]
        ∧ DescribesArrays (vertexInputOf (createBoxTexturedNode env color texFilePath transform)).1
            (vertexInputOf (createBoxTexturedNode env color texFilePath transform)).2
            (boundArrays (createBoxTexturedNode env color texFilePath transform)))
      ∧ (boundArrays (createSphereTexturedNode env color texFilePath transform)
          = [Data.vec3Array createSphereTexturedNode_vertices,
             Data.vec3Array (List.replicate createSphereTexturedNode_vertices.length
               ⟨color.r, color.g, color.b⟩),
             Data.vec2Array createSphereTexturedNode_texcoords]
        ∧ DescribesArrays
            (vertexInputOf (createSphereTexturedNode env color texFilePath transform)).1
            (vertexInputOf (createSphereTexturedNode env color texFilePath transform)).2
            (boundArrays (createSphereTexturedNode env color texFilePath transform)))
      ∧ (boundArrays (createCylinderTexturedNode env color texFilePath transform)
          = [Data.vec3Array createCylinderTexturedNode_vertices,
             Data.vec3Array (List.replicate createCylinderTexturedNode_vertices.length
               ⟨color.r, color.g, color.b⟩),
             Data.vec2Array createCylinderTexturedNode_texcoords]
        ∧ DescribesArrays
            (vertexInputOf (createCylinderTexturedNode env color texFilePath transform)).1
            (vertexInputOf (createCylinderTexturedNode env color texFilePath transform)).2
            (boundArrays (createCylinderTexturedNode env color texFilePath transform))))
    ∧ ((∃ vs, readVertexShader env (env.GetChronoDataFile "vsg/shaders/vert_Phong.spv")
          = some vs)
        ∧ (∃ fs, readFragmentShader env (env.GetChronoDataFile "vsg/shaders/frag_Phong.spv")
          = some fs) →
      boundArrays (createBoxPhongNode env color transform)
          = [Data.vec3Array createBoxPhongNode_vertices,
             Data.vec3Array createBoxPhongNode_normals,
             Data.vec3Array (List.replicate createBoxPhongNode_vertices.length
               ⟨color.r, color.g, color.b⟩),
             Data.vec2Array createBoxPhongNode_texcoords]
        ∧ DescribesArrays (vertexInputOf (createBoxPhongNode env color transform)).1
            (vertexInputOf (createBoxPhongNode env color transform)).2
            (boundArrays (createBoxPhongNode env color transform))) := by
  constructor
  · rintro ⟨⟨vs, hv⟩, ⟨fs, hf⟩⟩
    refine ⟨?_, ?_, ?_⟩
    · have ha := boundArrays_addChild
      unfold createBoxTexturedNode
      rw [hv, hf]
      dsimp only [Commands.create, Commands.addChild, Commands.toNode, List.nil_append,
        List.cons_append]
      rw [ha]
      refine ⟨rfl, rfl, rfl, ?_⟩
      intro i
      fin_cases i <;> exact ⟨rfl, _, rfl, rfl⟩
    · have ha := boundArrays_addChild
      unfold createSphereTexturedNode
      rw [hv, hf]
      dsimp only [Commands.create, Commands.addChild, Commands.toNode, List.nil_append,
        List.cons_append]
      rw [ha]
      refine ⟨rfl, rfl, rfl, ?_⟩
      intro i
      fin_cases i <;> exact ⟨rfl, _, rfl, rfl⟩
    · have ha := boundArrays_addChild
      unfold createCylinderTexturedNode
      rw [hv, hf]
      dsimp only [Commands.create, Commands.addChild, Commands.toNode, List.nil_append,
        List.cons_append]
      rw [ha]
      refine ⟨rfl, rfl, rfl, ?_⟩
      intro i
      fin_cases i <;> exact ⟨rfl, _, rfl, rfl⟩
  · rintro ⟨⟨vs, hv⟩, ⟨fs, hf⟩⟩
    have ha := boundArrays_addChild
    unfold createBoxPhongNode
    rw [hv, hf]
    dsimp only [Commands.create, Commands.addChild, Commands.toNode, List.nil_append,
      List.cons_append]
    rw [ha]
    refine ⟨rfl, rfl, rfl, ?_⟩
    intro i
    fin_cases i <;> exact ⟨rfl, _, rfl, rfl⟩

end ChVSGShapeFactory

end vsg3d

end chrono

namespace chrono

namespace vsg3d

namespace ChVSGShapeFactory

open vsg

/-- Witness of C15: with readable shaders, the declared vertex input of the Phong box matches
its four bound arrays. -/
theorem vertex_input_matches_bound_arrays_witness :
    DescribesArrays (vertexInputOf (createBoxPhongNode shaderEnv ⟨1, 0, 0, 1⟩ sampleTransform)).1
      (vertexInputOf (createBoxPhongNode shaderEnv ⟨1, 0, 0, 1⟩ sampleTransform)).2
      (boundArrays (createBoxPhongNode shaderEnv ⟨1, 0, 0, 1⟩ sampleTransform)) :=
  ((vertex_input_matches_bound_arrays shaderEnv ⟨1, 0, 0, 1⟩ "textures/cubetexture.png"
    sampleTransform).2 ⟨⟨_, rfl⟩, ⟨_, rfl⟩⟩).2

/-- C16: the textured box and the Phong-lit box are the same mesh: the vertex-position table,
the texture-coordinate table and the index table of `createBoxTexturedNode` are equal to those of
`createBoxPhongNode`, and for every colour both build the same colour array, the red, green and
blue of the colour once per vertex (24 times), whatever the alpha. -/
theorem box_meshes_agree (env : Env) (color : vec4) (texFilePath : String)
    (transform : MatrixTransform) :
    (createBoxTexturedNode_vertices = createBoxPhongNode_vertices
      ∧ createBoxTexturedNode_texcoords = createBoxPhongNode_texcoords
      ∧ createBoxTexturedNode_indices = createBoxPhongNode_indices)
    ∧ ((∃ vs, readVertexShader env (env.GetChronoDataFile "vsg/shaders/vert_PushConstants.spv")
          = some vs)
        ∧ (∃ fs, readFragmentShader env
          (env.GetChronoDataFile "vsg/shaders/frag_PushConstants.spv") = some fs) →
      boundArrays (createBoxTexturedNode env color texFilePath transform)
        = [Data.vec3Array createBoxTexturedNode_vertices, colourPerVertex color 24,
           Data.vec2Array createBoxTexturedNode_texcoords])
    ∧ ((∃ vs, readVertexShader env (env.GetChronoDataFile "vsg/shaders/vert_Phong.spv")
          = some vs)
        ∧ (∃ fs, readFragmentShader env (env.GetChronoDataFile "vsg/shaders/frag_Phong.spv")
          = some fs) →
      boundArrays (createBoxPhongNode env color transform)
        = [Data.vec3Array createBoxPhongNode_vertices, Data.vec3Array createBoxPhongNode_normals,
           colourPerVertex color 24, Data.vec2Array createBoxPhongNode_texcoords])
    ∧ (∀ alpha : ℚ, colourPerVertex { color with a := alpha } 24 = colourPerVertex color 24) := by
  refine ⟨by decide!, ?_, ?_, fun _ => rfl⟩
  · rintro ⟨⟨vs, hv⟩, ⟨fs, hf⟩⟩
    have ha := boundArrays_addChild
    unfold createBoxTexturedNode
    rw [hv, hf]
    dsimp only [Commands.create, Commands.addChild, Commands.toNode, List.nil_append,
      List.cons_append]
    rw [ha]
    rfl
  · rintro ⟨⟨vs, hv⟩, ⟨fs, hf⟩⟩
    have ha := boundArrays_addChild
    unfold createBoxPhongNode
    rw [hv, hf]
    dsimp only [Commands.create, Commands.addChild, Commands.toNode, List.nil_append,
      List.cons_append]
    rw [ha]
    rfl

/-- Witness of C16: with readable shaders, the colour (1/2, 1/4, 1/8, 1) gives the same colour
array in the textured box and in the Phong box. -/
theorem box_meshes_agree_witness :
    (boundArrays (createBoxTexturedNode shaderEnv ⟨1 / 2, 1 / 4, 1 / 8, 1⟩
        "textures/cubetexture.png" sampleTransform))[1]?
      = some (colourPerVertex ⟨1 / 2, 1 / 4, 1 / 8, 1⟩ 24)
    ∧ (boundArrays (createBoxPhongNode shaderEnv ⟨1 / 2, 1 / 4, 1 / 8, 1⟩ sampleTransform))[2]?
      = some (colourPerVertex ⟨1 / 2, 1 / 4, 1 / 8, 1⟩ 24) :=
  ⟨by
    rw [(box_meshes_agree shaderEnv ⟨1 / 2, 1 / 4, 1 / 8, 1⟩ "textures/cubetexture.png"
      sampleTransform).2.1 ⟨⟨_, rfl⟩, ⟨_, rfl⟩⟩]
    rfl,
   by
    rw [(box_meshes_agree shaderEnv ⟨1 / 2, 1 / 4, 1 / 8, 1⟩ "textures/cubetexture.png"
      sampleTransform).2.2.1 ⟨⟨_, rfl⟩, ⟨_, rfl⟩⟩]
    rfl⟩

end ChVSGShapeFactory

end vsg3d

end chrono
